import Mathlib

/-!
Ringgle voice-call client: call controller and settings editor.

A shallow embedding of `src/pages/Call.jsx` and `src/pages/Settings.jsx`.

React state is a record; every `setX(v)` is a record update.  A function
defined inside the component body closes over the state values of the render
that created it, so every embedded function takes two records: `r`, the
render whose closure the function belongs to (it supplies the plain reads of
`messages`, `turnCount`, `wordCount`, `isMuted`), and the world `w`, which
holds the live state the setters write to.  Calls to the remote service, the
recogniser, the synthesiser, timers and navigation are appended to a trace;
the results of awaited calls are supplied as arguments.
-/

namespace Ringgle

/-! ## Strings -/

/-- Code points removed by `String.prototype.trim`: WhiteSpace and LineTerminator. -/
def isJsWhitespace (c : Char) : Bool :=
  c.toNat = 0x09 || c.toNat = 0x0A || c.toNat = 0x0B || c.toNat = 0x0C || c.toNat = 0x0D ||
  c.toNat = 0x20 || c.toNat = 0xA0 || c.toNat = 0x1680 ||
  (0x2000 ≤ c.toNat && c.toNat ≤ 0x200A) ||
  c.toNat = 0x2028 || c.toNat = 0x2029 || c.toNat = 0x202F || c.toNat = 0x205F ||
  c.toNat = 0x3000 || c.toNat = 0xFEFF

/-- The characters of `text.trim()`. -/
def trim (cs : List Char) : List Char :=
  ((cs.dropWhile isJsWhitespace).reverse.dropWhile isJsWhitespace).reverse

/-- The guard `!text.trim()`: the trimmed string is the empty (falsy) string. -/
def isBlank (text : String) : Bool :=
  (trim text.toList).isEmpty

/-- The pieces of `text.split(sep)` for a one-character separator. -/
def split (sep : Char) : List Char → List (List Char)
  | [] => [[]]
  | c :: cs =>
    if c = sep then [] :: split sep cs
    else
      match split sep cs with
      | [] => [[c]]
      | p :: ps => (c :: p) :: ps

/-- The value of `text.split(' ').length`. -/
def splitSpaceLength (text : String) : Nat :=
  (split ' ' text.toList).length

/-- Whitespace-delimited tokens counted by a scan: `inTok` tells whether the
previous character belonged to a token. -/
def countTokens : Bool → List Char → Nat
  | _, [] => 0
  | inTok, c :: cs =>
    if isJsWhitespace c then countTokens false cs
    else (if inTok then 0 else 1) + countTokens true cs

/-- The number of whitespace-delimited tokens of a text, following the
specification's words: maximal runs of non-whitespace characters. -/
def whitespaceTokenCount (text : String) : Nat :=
  countTokens false text.toList

/-- Truthiness of an optional string field: present and not the empty string. -/
def truthy : Option String → Bool
  | some s => s != ""
  | none => false

/-- The value of `x || fallback` for an optional string `x`. -/
def orElse (x : Option String) (fallback : String) : String :=
  match x with
  | some s => if s != "" then s else fallback
  | none => fallback

/-! ## Data model of the call screen -/

/-- An element of the `messages` array.  A field that the object literal does
not set is `none`. -/
structure Message where
  role : Option String
  content : String
  translation : Option String
  speaker : Option String
  turnNumber : Option Nat
  totalWords : Option Nat
deriving DecidableEq, Repr

/-- An entry of the turn history handed to `sendMessage`. -/
structure ApiMessage where
  role : String
  content : String
deriving DecidableEq, Repr

/-- The resolved value of `sendMessage`. -/
structure Reply where
  message : String
  translation : Option String
deriving DecidableEq, Repr

/-- The outcome of `await textToSpeech(text, settings)`. -/
inductive TtsResult where
  | rejected
  | ok (audio : Option String)
deriving DecidableEq, Repr

/-- Outcomes of the awaited and throwing calls inside `speakText`. -/
structure SpeechOutcome where
  tts : TtsResult
  playOk : Bool
  synthThrows : Bool
deriving DecidableEq, Repr

/-- An entry of the `callHistory` array in local storage. -/
structure HistoryEntry where
  date : String
  fullDate : String
  duration : String
  words : Nat
  tutorName : String
  sessionId : String
deriving DecidableEq, Repr

/-- The object written under `lastCallResult`. -/
structure CallResult where
  duration : Nat
  messages : List Message
  date : String
  turnCount : Nat
  wordCount : Nat
  tutorName : String
  deviceId : String
  sessionId : String
deriving DecidableEq, Repr

/-- Calls that leave the component, in the order they are made. -/
inductive Event where
  | startSession (tutorName : String)
  | sendMessage (history : List ApiMessage)
  | saveMessage (role content : String) (translation : Option String) (turnNumber : Nat)
  | textToSpeech (text : String)
  | playAudio (audio : String)
  | speak (text : String) (rateTenths : Nat)
  | recognitionStart
  | recognitionStop
  | recognitionAbort
  | startListeningAfter (ms : Nat)
  | clearTimer
  | audioPause
  | synthCancel
  | endSession (duration turnCount wordCount : Nat)
  | navigate (path : String)
deriving DecidableEq, Repr

/-- The `useState` cells of `Call`. -/
structure CallState where
  callTime : Nat
  isListening : Bool
  isSpeaking : Bool
  isLoading : Bool
  isMuted : Bool
  showSubtitles : Bool
  messages : List Message
  transcript : String
  currentSubtitle : String
  koreanSubtitle : String
  turnCount : Nat
  wordCount : Nat
  sessionStarted : Bool
deriving DecidableEq, Repr

/-- Values fixed for the lifetime of the component: the selected tutor, the
identifiers, the speed setting, and which browser capabilities exist. -/
structure Env where
  tutorName : String
  deviceId : String
  sessionId : String
  speed : String
  hasRecognition : Bool
  hasSpeechSynthesis : Bool
deriving DecidableEq, Repr

/-- The part of local storage the call screen writes. -/
structure Storage where
  lastCallResult : Option CallResult
  callHistory : Option (List HistoryEntry)
deriving DecidableEq, Repr

/-- Live state, storage, the audio ref and the trace of outgoing calls. -/
structure World where
  state : CallState
  storage : Storage
  audioRef : Bool
  trace : List Event
deriving DecidableEq, Repr

/-- The state of the first render (`useState` initial values). -/
def initialState : CallState :=
  { callTime := 0, isListening := false, isSpeaking := false, isLoading := false,
    isMuted := false, showSubtitles := true, messages := [], transcript := "",
    currentSubtitle := "", koreanSubtitle := "", turnCount := 0, wordCount := 0,
    sessionStarted := false }

/-- Append one outgoing call to the trace. -/
def World.emit (w : World) (e : Event) : World :=
  { w with trace := w.trace ++ [e] }

/-- Replace the live state. -/
def World.put (w : World) (s : CallState) : World :=
  { w with state := s }

/-! ## Call controller operations -/

/-- Body of `startListening` (lines 218-228); `isMuted` is read from the
closure.  An exception of `recognition.start()` is caught and changes nothing. -/
def startListening (env : Env) (r : CallState) (w : World) : World :=
  if env.hasRecognition && !r.isMuted then
    (w.put { w.state with isListening := true, transcript := "" }).emit Event.recognitionStart
  else w

/-- Body of `stopListening` (lines 233-238). -/
def stopListening (env : Env) (w : World) : World :=
  if env.hasRecognition then
    (w.emit Event.recognitionStop).put { w.state with isListening := false }
  else w

/-- Body of `toggleMute` (lines 243-251). -/
def toggleMute (env : Env) (r : CallState) (w : World) : World :=
  if r.isMuted then
    startListening env r (w.put { w.state with isMuted := false })
  else
    stopListening env (w.put { w.state with isMuted := true })

/-- The `utterance.rate` of the browser fallback, in tenths. -/
def utteranceRate (env : Env) : Nat :=
  if env.speed = "slow" then 8 else if env.speed = "fast" then 12 else 10

/-- The `try` block of `speakText` (lines 186-193).  The flag tells whether
the block threw. -/
def speakTextTry (env : Env) (r : CallState) (o : SpeechOutcome) (text : String)
    (w : World) : World × Bool :=
  let w1 := w.emit (Event.textToSpeech text)
  match o.tts with
  | TtsResult.rejected => (w1, true)
  | TtsResult.ok audio =>
    if truthy audio then
      let w2 := { w1.emit (Event.playAudio (audio.getD "")) with audioRef := true }
      if o.playOk then
        (startListening env r (w2.put { w2.state with isSpeaking := false }), false)
      else (w2, true)
    else
      (startListening env r (w1.put { w1.state with isSpeaking := false }), false)

/-- The `catch` block of `speakText` (lines 194-212).  The flag tells whether
the block itself threw, in which case `speakText` rejects. -/
def speakTextCatch (env : Env) (r : CallState) (o : SpeechOutcome) (text : String)
    (w : World) : World × Bool :=
  if env.hasSpeechSynthesis then
    if o.synthThrows then (w, true)
    else (w.emit (Event.speak text (utteranceRate env)), false)
  else
    (startListening env r (w.put { w.state with isSpeaking := false }), false)

/-- Body of `speakText` (lines 181-213).  The flag tells whether the returned
promise rejects. -/
def speakText (env : Env) (r : CallState) (o : SpeechOutcome) (text : String)
    (w : World) : World × Bool :=
  let w0 := w.put { w.state with isSpeaking := true, currentSubtitle := text }
  let t := speakTextTry env r o text w0
  if t.2 then speakTextCatch env r o text t.1 else t

/-- The handler `utterance.onend` installed by the browser fallback (lines 202-205). -/
def utteranceOnEnd (env : Env) (r : CallState) (w : World) : World :=
  startListening env r (w.put { w.state with isSpeaking := false })

/-- The fallback line of `startConversation` (line 159). -/
def mockMessage (tutorName : String) : String :=
  "Hello! This is " ++ tutorName ++ ". How are you doing today?"

/-- The fallback translation of `startConversation` (line 160). -/
def mockTranslation (tutorName : String) : String :=
  "안녕하세요! " ++ tutorName ++ "입니다. 오늘 어떻게 지내세요?"

/-- The fallback greeting object (line 161): it has no `role` and no `turnNumber`. -/
def mockGreeting (tutorName : String) : Message :=
  { role := none, content := mockMessage tutorName,
    translation := some (mockTranslation tutorName), speaker := some "ai",
    turnNumber := none, totalWords := none }

/-- The assistant turn object built from a reply (lines 133-139 and 297-303). -/
def aiMessage (reply : Reply) (turnNumber : Nat) : Message :=
  { role := some "assistant", content := reply.message, translation := reply.translation,
    speaker := some "ai", turnNumber := some turnNumber, totalWords := none }

/-- The `try` block of `startConversation` (lines 126-154).  The flag tells
whether the block threw. -/
def startConversationTry (env : Env) (r : CallState) (sessionOk : Bool)
    (greeting : Option Reply) (o : SpeechOutcome) (w : World) : World × Bool :=
  let w1 := w.emit (Event.startSession env.tutorName)
  if sessionOk then
    let w2 := (w1.put { w1.state with sessionStarted := true }).emit (Event.sendMessage [])
    match greeting with
    | none => (w2, true)
    | some response =>
      let w3 := w2.put { w2.state with
        messages := [aiMessage response 1],
        currentSubtitle := response.message,
        koreanSubtitle := orElse response.translation "",
        turnCount := 1 }
      let w4 := w3.emit (Event.saveMessage "assistant" response.message response.translation 1)
      speakText env r o response.message w4
  else (w1, true)

/-- The `catch` block of `startConversation` (lines 156-172). -/
def startConversationCatch (env : Env) (r : CallState) (o : SpeechOutcome) (w : World) : World :=
  let w1 := w.put { w.state with
    messages := [mockGreeting env.tutorName],
    currentSubtitle := mockMessage env.tutorName,
    koreanSubtitle := mockTranslation env.tutorName,
    turnCount := 1 }
  let t := speakText env r o (mockMessage env.tutorName) w1
  if t.2 then startListening env r t.1 else t.1

/-- Body of `startConversation` (lines 122-176).  `sessionOk` and `greeting`
are the outcomes of `startSession` and of the greeting `sendMessage`; `o1`
gives the speech outcomes for the remote greeting and `o2` those for the
fallback greeting. -/
def startConversation (env : Env) (r : CallState) (sessionOk : Bool)
    (greeting : Option Reply) (o1 o2 : SpeechOutcome) (w : World) : World :=
  let w0 := w.put { w.state with isLoading := true }
  let t := startConversationTry env r sessionOk greeting o1 w0
  let w1 := if t.2 then startConversationCatch env r o2 t.1 else t.1
  w1.put { w1.state with isLoading := false }

/-- The object `userMessage` of `handleUserSpeech` (lines 259-268). -/
def userMessage (r : CallState) (text : String) : Message :=
  { role := some "user", content := text, translation := none, speaker := some "user",
    turnNumber := some (r.turnCount + 1),
    totalWords := some (r.wordCount + splitSpaceLength text) }

/-- The mapping of a turn to a role-tagged entry (lines 289-292). -/
def toApiMessage (m : Message) : ApiMessage :=
  { role := orElse m.role (if m.speaker = some "ai" then "assistant" else "user"),
    content := m.content }

/-- The part of `handleUserSpeech` after the blank guard that runs before the
first `await` (lines 259-294): it ends by issuing the `sendMessage` request. -/
def handleUserSpeechBegin (env : Env) (r : CallState) (text : String) (w : World) : World :=
  let newTurnCount := r.turnCount + 1
  let newWordCount := r.wordCount + splitSpaceLength text
  let updatedMessages := r.messages ++ [userMessage r text]
  let w1 := w.put { w.state with
    messages := updatedMessages,
    turnCount := newTurnCount,
    wordCount := newWordCount,
    currentSubtitle := text,
    koreanSubtitle := "" }
  let w2 := stopListening env w1
  let w3 := w2.put { w2.state with isLoading := true }
  let w4 := w3.emit (Event.saveMessage "user" text none newTurnCount)
  w4.emit (Event.sendMessage (updatedMessages.map toApiMessage))

/-- The part of the `try` block of `handleUserSpeech` that follows a resolved
`sendMessage` (lines 296-318).  The flag tells whether it threw. -/
def handleUserSpeechReply (env : Env) (r : CallState) (response : Reply)
    (o : SpeechOutcome) (w : World) : World × Bool :=
  let aiTurnNumber := r.turnCount + 1 + 1
  let w1 := w.put { w.state with
    messages := w.state.messages ++ [aiMessage response aiTurnNumber],
    turnCount := aiTurnNumber,
    currentSubtitle := response.message,
    koreanSubtitle := orElse response.translation "" }
  let w2 := w1.emit (Event.saveMessage "assistant" response.message response.translation
    aiTurnNumber)
  speakText env r o response.message w2

/-- The continuation of `handleUserSpeech` once `sendMessage` has settled
(lines 294-325): `none` is a rejected request. -/
def handleUserSpeechResume (env : Env) (r : CallState) (reply : Option Reply)
    (o : SpeechOutcome) (w : World) : World :=
  let t : World × Bool :=
    match reply with
    | none => (w, true)
    | some response => handleUserSpeechReply env r response o w
  let w1 := if t.2 then t.1.emit (Event.startListeningAfter 1000) else t.1
  w1.put { w1.state with isLoading := false }

/-- Body of `handleUserSpeech` (lines 256-326), run to completion with no
other event in between. -/
def handleUserSpeech (env : Env) (r : CallState) (text : String) (reply : Option Reply)
    (o : SpeechOutcome) (w : World) : World :=
  if isBlank text then w
  else handleUserSpeechResume env r reply o (handleUserSpeechBegin env r text w)

/-- One entry of `event.results` from `event.resultIndex` on: its `isFinal`
flag and the transcript of its first alternative. -/
structure SpeechResult where
  isFinal : Bool
  transcript : String
deriving DecidableEq, Repr

/-- The string `finalTranscript` accumulated by the loop of `onresult` (lines 84-91). -/
def finalTranscript : List SpeechResult → String
  | [] => ""
  | x :: xs => if x.isFinal then x.transcript ++ finalTranscript xs else finalTranscript xs

/-- The string `interimTranscript` accumulated by the loop of `onresult` (lines 84-91). -/
def interimTranscript : List SpeechResult → String
  | [] => ""
  | x :: xs => if x.isFinal then interimTranscript xs else x.transcript ++ interimTranscript xs

/-- Body of the `onresult` handler (lines 80-97) created in render `r`.
`handleUserSpeech` runs up to its first `await`, then `setTranscript` runs,
and the rest of `handleUserSpeech` runs when the request has settled. -/
def onresult (env : Env) (r : CallState) (results : List SpeechResult)
    (reply : Option Reply) (o : SpeechOutcome) (w : World) : World :=
  let fin := finalTranscript results
  let interim := interimTranscript results
  let proceeds := fin != "" && !isBlank fin
  let w1 := if proceeds then handleUserSpeechBegin env r fin w else w
  let w2 := w1.put { w1.state with transcript := if interim != "" then interim else fin }
  if proceeds then handleUserSpeechResume env r reply o w2 else w2

/-- The handler the recogniser really calls.  The effect of lines 72-112 has an
empty dependency list: it runs once, after the first render, so the
`handleUserSpeech` it captures is the one of the first render, whose closure
holds the initial state. -/
def mountedOnresult (env : Env) (results : List SpeechResult)
    (reply : Option Reply) (o : SpeechOutcome) (w : World) : World :=
  onresult env initialState results reply o w

/-- The call of `startConversation` made by the mount effect (lines 115-117),
likewise from the first render. -/
def mountedStartConversation (env : Env) (sessionOk : Bool) (greeting : Option Reply)
    (o1 o2 : SpeechOutcome) (w : World) : World :=
  startConversation env initialState sessionOk greeting o1 o2 w

/-- The world right after the first render. -/
def initialWorld : World :=
  { state := initialState, storage := { lastCallResult := none, callHistory := none },
    audioRef := false, trace := [] }

/-- The integer nearest to `a / b`, ties going to the even one. -/
def roundHalfEven (a b : Nat) : Nat :=
  let q := a / b
  let r := a % b
  if 2 * r < b then q
  else if b < 2 * r then q + 1
  else if q % 2 = 0 then q else q + 1

/-- The least `k` within the fuel such that `bound ≤ a * 2 ^ k`. -/
def shiftUp : Nat → Nat → Nat → Nat
  | 0, _, _ => 0
  | fuel + 1, a, bound => if bound ≤ a then 0 else shiftUp fuel (2 * a) bound + 1

/-- The least `e` within the fuel such that `a < bound * 2 ^ e`. -/
def shiftDown : Nat → Nat → Nat → Nat
  | 0, _, _ => 0
  | fuel + 1, a, bound => if a < bound then 0 else shiftDown fuel a (2 * bound) + 1

/-- The value of `Math.floor(a / b)` for integer-valued doubles `a` and `b > 0`:
the quotient is rounded to a 53-bit significand, ties to even, and then
floored. -/
def floorDiv (a b : Nat) : Nat :=
  if a = 0 then 0
  else
    let up := shiftUp 1100 a (b * 2 ^ 52)
    let down := shiftDown 1100 a (b * 2 ^ 53)
    roundHalfEven (a * 2 ^ up) (b * 2 ^ down) * 2 ^ down / 2 ^ up

/-- The double nearest to a natural number (ties to even), as a natural
number. -/
def toDouble (c : Nat) : Nat :=
  let down := shiftDown 1100 c (2 ^ 53)
  roundHalfEven c (2 ^ down) * 2 ^ down

/-- The shortest decimal that denotes the double `x`, searched from the
coarsest unit `10 ^ j` down to the units: a multiple of the unit next to `x`
that rounds to `x`, the nearer one when both do. -/
def shortestFrom (x : Nat) : Nat → Nat
  | 0 => x
  | j + 1 =>
    let unit := 10 ^ (j + 1)
    let lo := x / unit * unit
    let hi := lo + unit
    let loOk := decide (lo ≠ 0) && decide (toDouble lo = x)
    let hiOk := decide (toDouble hi = x)
    if loOk && hiOk then (if x - lo ≤ hi - x then lo else hi)
    else if loOk then lo
    else if hiOk then hi
    else shortestFrom x j

/-- The significand digits of a decimal, trailing zeros removed. -/
def significand (cs : List Char) : List Char :=
  (cs.reverse.dropWhile (fun c => c == '0')).reverse

/-- The value of `x.toString()` for a non-negative integer-valued double `x`. -/
def numberToString (x : Nat) : String :=
  let c := shortestFrom x ((toString x).length - 1)
  if c < 10 ^ 21 then toString c
  else
    let ds := significand (toString c).toList
    let n := (toString c).length
    String.mk (ds.take 1 ++ (if ds.length ≤ 1 then [] else '.' :: ds.drop 1))
      ++ "e+" ++ toString (n - 1)

/-- The value of `s.padStart(2, '0')`. -/
def padStart2 (s : String) : String :=
  String.mk (List.replicate (2 - s.length) '0') ++ s

/-- Body of `formatTime` (lines 331-335) on a non-negative integer-valued
double.  The remainder `seconds % 60` is exact in double arithmetic; the
quotient is rounded before it is floored. -/
def formatTime (seconds : Nat) : String :=
  let mins := floorDiv seconds 60
  let secs := seconds % 60
  padStart2 (numberToString mins) ++ ":" ++ padStart2 (numberToString secs)

/-- The three strings `handleEndCall` obtains from `new Date()`. -/
structure Clock where
  iso : String
  localeDate : String
  localeString : String
deriving DecidableEq, Repr

/-- The entry `handleEndCall` puts in front of the history (lines 378-385). -/
def historyEntry (env : Env) (r : CallState) (now : Clock) : HistoryEntry :=
  { date := now.localeDate, fullDate := now.localeString, duration := formatTime r.callTime,
    words := r.wordCount, tutorName := env.tutorName, sessionId := env.sessionId }

/-- Body of `handleEndCall` (lines 340-389).  A missing `callHistory` key is
read as the empty array. -/
def handleEndCall (env : Env) (r : CallState) (now : Clock) (w : World) : World :=
  let w1 := w.emit Event.clearTimer
  let w2 := if env.hasRecognition then w1.emit Event.recognitionAbort else w1
  let w3 := if w2.audioRef then { w2.emit Event.audioPause with audioRef := false } else w2
  let w4 := if env.hasSpeechSynthesis then w3.emit Event.synthCancel else w3
  let w5 := if r.sessionStarted then
      w4.emit (Event.endSession r.callTime r.turnCount r.wordCount) else w4
  let result : CallResult :=
    { duration := r.callTime, messages := r.messages, date := now.iso,
      turnCount := r.turnCount, wordCount := r.wordCount, tutorName := env.tutorName,
      deviceId := env.deviceId, sessionId := env.sessionId }
  let w6 := { w5 with storage := { w5.storage with lastCallResult := some result } }
  let history := historyEntry env r now :: w6.storage.callHistory.getD []
  let w7 := { w6 with storage := { w6.storage with callHistory := some (history.take 10) } }
  w7.emit (Event.navigate "/result")

/-! ## Settings editor -/

/-- A JSON value as far as the settings fields need it. -/
inductive JsVal where
  | undefined
  | null
  | bool (b : Bool)
  | num (n : Int)
  | str (s : String)
deriving DecidableEq, Repr

/-- JavaScript truthiness. -/
def JsVal.truthy : JsVal → Bool
  | JsVal.undefined => false
  | JsVal.null => false
  | JsVal.bool b => b
  | JsVal.num n => n != 0
  | JsVal.str s => s != ""

/-- The value of `a || b`. -/
def JsVal.or (a b : JsVal) : JsVal :=
  if a.truthy then a else b

/-- A settings object (remote, cached, or `DEFAULT_SETTINGS`): the four fields
the editor reads. -/
structure TutorSettings where
  tutorId : JsVal
  level : JsVal
  speed : JsVal
  duration : JsVal
deriving DecidableEq, Repr

/-- An element of `TUTORS`. -/
structure Tutor where
  id : String
  name : String
  accent : String
  gender : String
deriving DecidableEq, Repr

/-- The outcome of `await getSettingsFromServer(deviceId)`. -/
inductive ServerOutcome where
  | rejected
  | resolved (success : Bool) (settings : Option TutorSettings)
deriving DecidableEq, Repr

/-- The `useState` cells of `Settings`. -/
structure EditorState where
  selectedTutor : JsVal
  level : JsVal
  speed : JsVal
  duration : JsVal
  currentPage : Nat
  isSaving : Bool
  isLoading : Bool
deriving DecidableEq, Repr

/-- The editor state together with the local cache behind `getTutorSettings`
and `saveTutorSettings`. -/
structure Editor where
  state : EditorState
  cache : TutorSettings
deriving DecidableEq, Repr

/-- The state of the first render of `Settings` (lines 31-37). -/
def initialEditor (d : TutorSettings) (cache : TutorSettings) : Editor :=
  { state := { selectedTutor := d.tutorId, level := d.level, speed := d.speed,
               duration := d.duration, currentPage := 0, isSaving := false, isLoading := true },
    cache := cache }

/-- The four guarded setters and the page update applied to a settings object
(lines 50-59, repeated at 66-74 and 80-88). -/
def applySettings (d : TutorSettings) (tutors : List Tutor) (c : TutorSettings)
    (s : EditorState) : EditorState :=
  let s1 := if c.tutorId.truthy then { s with selectedTutor := c.tutorId } else s
  let s2 := if c.level.truthy then { s1 with level := c.level } else s1
  let s3 := if c.speed.truthy then { s2 with speed := c.speed } else s2
  let s4 := if c.duration.truthy then { s3 with duration := c.duration } else s3
  let tutorIndex := tutors.findIdx? (fun t => JsVal.str t.id = c.tutorId.or d.tutorId)
  match tutorIndex with
  | some i => if i > 0 then { s4 with currentPage := i } else s4
  | none => s4

/-- The configuration the remote tier supplies: the test
`response.success && response.settings` of line 47. -/
def remoteConfig : ServerOutcome → Option TutorSettings
  | ServerOutcome.rejected => none
  | ServerOutcome.resolved success settings => if success then settings else none

/-- Body of `loadSettings` (lines 41-92): `d` is `DEFAULT_SETTINGS`, `tutors`
is `TUTORS`. -/
def loadSettings (d : TutorSettings) (tutors : List Tutor) (outcome : ServerOutcome)
    (e : Editor) : Editor :=
  let e0 := { e with state := { e.state with isLoading := true } }
  let e1 : Editor :=
    match remoteConfig outcome with
    | some serverSettings =>
      { state := applySettings d tutors serverSettings e0.state, cache := serverSettings }
    | none =>
      { e0 with state := applySettings d tutors e0.cache e0.state }
  { e1 with state := { e1.state with isLoading := false } }

/-- The state cells that hold the recorded conversation. -/
structure Turns where
  messages : List Message
  turnCount : Nat
  wordCount : Nat
  koreanSubtitle : String
  isLoading : Bool
deriving DecidableEq, Repr

/-- Projection of the call state on the recorded conversation. -/
def CallState.turns (s : CallState) : Turns :=
  { messages := s.messages, turnCount := s.turnCount, wordCount := s.wordCount,
    koreanSubtitle := s.koreanSubtitle, isLoading := s.isLoading }

/-- Whether the promise of `speakText` rejects: the `try` block threw (the
remote call was rejected, or playback of a returned payload failed) and the
browser synthesiser, being present, threw as well. -/
def speechRejects (env : Env) (o : SpeechOutcome) : Bool :=
  (match o.tts with
    | TtsResult.rejected => true
    | TtsResult.ok audio => truthy audio && !o.playOk) &&
  env.hasSpeechSynthesis && o.synthThrows

/-- Projection of the editor state on the four settings fields. -/
def EditorState.fields (s : EditorState) : TutorSettings :=
  { tutorId := s.selectedTutor, level := s.level, speed := s.speed, duration := s.duration }

/-- Field by field, the value of `src` when it is truthy and the value of `d`
otherwise. -/
def fieldwiseOr (src d : TutorSettings) : TutorSettings :=
  { tutorId := src.tutorId.or d.tutorId, level := src.level.or d.level,
    speed := src.speed.or d.speed, duration := src.duration.or d.duration }

/-- The ids offered by the pickers: `TUTORS`, `LEVELS`, `SPEEDS`, `DURATIONS`. -/
structure Catalog where
  tutors : List Tutor
  levels : List JsVal
  speeds : List JsVal
  durations : List JsVal
deriving DecidableEq, Repr

/-- Whether a value is the id of a persona in `TUTORS`. -/
def isTutorId (tutors : List Tutor) (v : JsVal) : Bool :=
  tutors.any (fun t => JsVal.str t.id == v)

/-- All four fields are truthy (non-empty). -/
def allTruthy (c : TutorSettings) : Bool :=
  c.tutorId.truthy && c.level.truthy && c.speed.truthy && c.duration.truthy

/-- A valid, non-empty configuration: every field is truthy, the tutor id is
the id of a persona and the other three are among the offered ids. -/
def validSettings (cat : Catalog) (c : TutorSettings) : Bool :=
  allTruthy c && isTutorId cat.tutors c.tutorId && cat.levels.contains c.level &&
  cat.speeds.contains c.speed && cat.durations.contains c.duration

/-- Every field of a loaded object is either falsy (and so skipped by the
guarded setters) or an offered id. -/
def validWhereSet (cat : Catalog) (c : TutorSettings) : Bool :=
  (!c.tutorId.truthy || isTutorId cat.tutors c.tutorId) &&
  (!c.level.truthy || cat.levels.contains c.level) &&
  (!c.speed.truthy || cat.speeds.contains c.speed) &&
  (!c.duration.truthy || cat.durations.contains c.duration)

/-- The object `settings` built by `handleSave` (lines 126-134). -/
structure SettingsRecord where
  tutorId : JsVal
  tutorName : String
  accent : String
  gender : String
  level : JsVal
  speed : JsVal
  duration : JsVal
deriving DecidableEq, Repr

/-- Calls that leave `handleSave`, in the order they are made. -/
inductive EditorEvent where
  | saveTutorSettings (record : SettingsRecord)
  | saveSettingsToServer (record : SettingsRecord)
  | navigate (delta : Int)
deriving DecidableEq, Repr

/-- The editor state, the record held by the local cache, and the log of
outgoing calls. -/
structure SaveWorld where
  state : EditorState
  stored : Option SettingsRecord
  log : List EditorEvent
deriving DecidableEq, Repr

/-- The object literal of lines 125-134, from the state of render `r`. -/
def settingsRecord (tutors : List Tutor) (r : EditorState) : SettingsRecord :=
  let tutor := tutors.find? (fun t => JsVal.str t.id = r.selectedTutor)
  { tutorId := r.selectedTutor,
    tutorName := orElse (tutor.map (fun t => t.name)) "Gwen",
    accent := orElse (tutor.map (fun t => t.accent)) "us",
    gender := orElse (tutor.map (fun t => t.gender)) "female",
    level := r.level,
    speed := r.speed,
    duration := r.duration }

/-- Body of `handleSave` (lines 121-150) created in render `r`.  `saveOk`
tells whether the `try` block (device id and remote save) completes; both
branches only write to the console. -/
def handleSave (tutors : List Tutor) (r : EditorState) (saveOk : Bool) (e : SaveWorld) :
    SaveWorld :=
  if r.isSaving then e
  else
    let e1 := { e with state := { e.state with isSaving := true } }
    let settings := settingsRecord tutors r
    let e2 := { e1 with stored := some settings,
                        log := e1.log ++ [EditorEvent.saveTutorSettings settings] }
    let e3 := { e2 with log := e2.log ++ [EditorEvent.saveSettingsToServer settings] }
    let e4 := if saveOk then e3 else e3
    { e4 with state := { e4.state with isSaving := false },
              log := e4.log ++ [EditorEvent.navigate (-1)] }

/-- The decimal numeral of a natural number, most significant digit first. -/
def decimal (n : Nat) : List Char :=
  if _h : n < 10 then [Nat.digitChar n]
  else decimal (n / 10) ++ [Nat.digitChar (n % 10)]
decreasing_by omega

/-- The value of a decimal digit character. -/
def digitValue (c : Char) : Nat :=
  c.toNat - 48

/-- The number denoted by a string of decimal digits. -/
def readDecimal (cs : List Char) : Nat :=
  cs.foldl (fun acc c => 10 * acc + digitValue c) 0

/-- The characters of a time string before its first colon. -/
def minutesPart (t : String) : List Char :=
  t.toList.takeWhile (fun c => c != ':')

/-- The characters of a time string after its first colon. -/
def secondsPart (t : String) : List Char :=
  (t.toList.dropWhile (fun c => c != ':')).drop 1

/-- A time string read back as a number of seconds: `60 * M + SS`. -/
def readTime (t : String) : Nat :=
  60 * readDecimal (minutesPart t) + readDecimal (secondsPart t)

/-! ## Sample inputs -/

/-- A browser with both speech capabilities and the tutor Gwen. -/
def sampleEnv : Env :=
  { tutorName := "Gwen", deviceId := "device-1", sessionId := "session-1", speed := "normal",
    hasRecognition := true, hasSpeechSynthesis := true }

/-- Remote synthesis returns audio and playback finishes. -/
def audioPlayed : SpeechOutcome :=
  { tts := TtsResult.ok (some "QUJD"), playOk := true, synthThrows := false }

/-- Remote synthesis resolves without an audio payload. -/
def noAudio : SpeechOutcome :=
  { tts := TtsResult.ok none, playOk := true, synthThrows := false }

/-- The world once the remote greeting "Hello!" has been recorded and spoken. -/
def greetedWorld : World :=
  mountedStartConversation sampleEnv true (some { message := "Hello!", translation := none })
    audioPlayed audioPlayed initialWorld

/-- Remote synthesis is rejected and the browser synthesiser throws. -/
def speechFails : SpeechOutcome :=
  { tts := TtsResult.rejected, playOk := true, synthThrows := true }

/-- Sample value for `DEFAULT_SETTINGS`. -/
def sampleDefaults : TutorSettings :=
  { tutorId := JsVal.str "gwen", level := JsVal.str "intermediate", speed := JsVal.str "normal",
    duration := JsVal.str "5" }

/-- A remote configuration that carries no `tutorId`. -/
def remoteWithoutTutor : TutorSettings :=
  { tutorId := JsVal.undefined, level := JsVal.str "easy", speed := JsVal.str "slow",
    duration := JsVal.str "10" }

/-- A local cache with all four fields stored. -/
def sampleCache : TutorSettings :=
  { tutorId := JsVal.str "james", level := JsVal.str "easy", speed := JsVal.str "normal",
    duration := JsVal.str "5" }

/-- A local cache with nothing stored. -/
def emptyCache : TutorSettings :=
  { tutorId := JsVal.undefined, level := JsVal.undefined, speed := JsVal.undefined,
    duration := JsVal.undefined }

/-- Sample value for `TUTORS`. -/
def sampleTutors : List Tutor :=
  [{ id := "gwen", name := "Gwen", accent := "us", gender := "female" },
   { id := "james", name := "James", accent := "uk", gender := "male" }]

/-- The world after the greeting, the utterance "hi" and the reply "Good". -/
def afterFirstExchange : World :=
  mountedOnresult sampleEnv [{ isFinal := true, transcript := "hi" }]
    (some { message := "Good", translation := none }) audioPlayed greetedWorld

/-- The world after the mute button is pressed while listening. -/
def mutedWorld : World :=
  toggleMute sampleEnv greetedWorld.state greetedWorld

/-- Sample values for `TUTORS`, `LEVELS`, `SPEEDS`, `DURATIONS`. -/
def sampleCatalog : Catalog :=
  { tutors := sampleTutors,
    levels := [JsVal.str "easy", JsVal.str "intermediate"],
    speeds := [JsVal.str "normal", JsVal.str "slow"],
    durations := [JsVal.str "5", JsVal.str "10"] }

/-- A remote configuration whose tutor id names no persona. -/
def remoteUnknownTutor : TutorSettings :=
  { tutorId := JsVal.str "nobody", level := JsVal.str "easy", speed := JsVal.str "slow",
    duration := JsVal.str "10" }

/-- An editor in which James is selected and no save is in progress. -/
def sampleSaveWorld : SaveWorld :=
  { state := { selectedTutor := JsVal.str "james", level := JsVal.str "easy",
               speed := JsVal.str "slow", duration := JsVal.str "10", currentPage := 1,
               isSaving := false, isLoading := false },
    stored := none, log := [] }

/-! ## The call controller as an event-driven system -/

/-- The part of the `onresult` handler that runs before the first `await`
(lines 80-97 with lines 256-294): `handleUserSpeech` up to the request, then
`setTranscript`. -/
def onresultBegin (env : Env) (r : CallState) (results : List SpeechResult) (w : World) : World :=
  let fin := finalTranscript results
  let interim := interimTranscript results
  let proceeds := fin != "" && !isBlank fin
  let w1 := if proceeds then handleUserSpeechBegin env r fin w else w
  w1.put { w1.state with transcript := if interim != "" then interim else fin }

/-- What the environment still owes the controller: conversation requests
issued by `handleUserSpeech` and not yet settled, browser utterances whose
`onend` has not fired, timers that have not fired, whether the recogniser is
running, and whether a recogniser that was told to `stop()` still has to
return the result for the audio it captured. -/
structure Pending where
  requests : Nat
  utterances : Nat
  timers : Nat
  capturing : Bool
  flushing : Bool
deriving DecidableEq, Repr

/-- The effect of one outgoing call on what is pending.  `start()` makes the
recogniser run; `stop()` on a running recogniser ends capture and leaves the
result for the captured audio to come; `abort()` ends capture with no result. -/
def Pending.record (p : Pending) : Event → Pending
  | Event.sendMessage _ => { p with requests := p.requests + 1 }
  | Event.speak _ _ => { p with utterances := p.utterances + 1 }
  | Event.startListeningAfter _ => { p with timers := p.timers + 1 }
  | Event.recognitionStart => { p with capturing := true, flushing := false }
  | Event.recognitionStop =>
    if p.capturing then { p with capturing := false, flushing := true } else p
  | Event.recognitionAbort => { p with capturing := false, flushing := false }
  | _ => p

/-- The number of things that can call back into the controller's turn-taking:
outstanding requests, utterances, timers, and the running recogniser. -/
def Pending.tokens (p : Pending) : Nat :=
  p.requests + p.utterances + p.timers + (if p.capturing then 1 else 0)

/-- The calls added to the trace between two worlds. -/
def added (w w1 : World) : List Event :=
  w1.trace.drop w.trace.length

/-- The world together with what is pending. -/
structure Sys where
  world : World
  pending : Pending
deriving DecidableEq, Repr

/-- Run a handler and record the calls it makes. -/
def Sys.run (s : Sys) (f : World → World) : Sys :=
  { world := f s.world,
    pending := (added s.world (f s.world)).foldl Pending.record s.pending }

/-- What can happen to the mounted component. -/
inductive Input where
  | results (results : List SpeechResult)
  | settled (reply : Option Reply) (o : SpeechOutcome)
  | utteranceEnded
  | timerFired
  | muteToggled
  | captureEnded
deriving DecidableEq, Repr

/-- One event of the mounted component.  The recogniser fires `onresult` while
it is running, and once more after `stop()` for the audio captured so far
(`abort()` returns nothing); a request settles, an utterance ends and a timer
fires only when one is pending; otherwise the input changes nothing.  The
handlers reached from the recogniser, the timer and the utterance belong to
the first render; `toggleMute` belongs to the current render. -/
def step (env : Env) (s : Sys) : Input → Sys
  | Input.results results =>
    if s.pending.capturing then s.run (onresultBegin env initialState results)
    else if s.pending.flushing then
      Sys.run { s with pending := { s.pending with flushing := false } }
        (onresultBegin env initialState results)
    else s
  | Input.settled reply o =>
    if 0 < s.pending.requests then
      Sys.run { s with pending := { s.pending with requests := s.pending.requests - 1 } }
        (handleUserSpeechResume env initialState reply o)
    else s
  | Input.utteranceEnded =>
    if 0 < s.pending.utterances then
      Sys.run { s with pending := { s.pending with utterances := s.pending.utterances - 1 } }
        (utteranceOnEnd env initialState)
    else s
  | Input.timerFired =>
    if 0 < s.pending.timers then
      Sys.run { s with pending := { s.pending with timers := s.pending.timers - 1 } }
        (startListening env initialState)
    else s
  | Input.muteToggled => s.run (toggleMute env s.world.state)
  | Input.captureEnded =>
    { s with pending := { s.pending with capturing := false, flushing := false } }

/-- The system once `startConversation` has returned: the greeting request, if
one was issued, has settled by then. -/
def mount (env : Env) (sessionOk : Bool) (greeting : Option Reply) (o1 o2 : SpeechOutcome) :
    Sys :=
  let s := Sys.run { world := initialWorld,
                     pending := { requests := 0, utterances := 0, timers := 0,
                                  capturing := false, flushing := false } }
    (mountedStartConversation env sessionOk greeting o1 o2)
  { s with pending := { s.pending with requests := 0 } }

/-- The system after a sequence of events. -/
def runAll (env : Env) (s : Sys) (inputs : List Input) : Sys :=
  inputs.foldl (step env) s

/-- How `speakText` changes the pending utterances, timers and recogniser:
nothing when it rejects; otherwise nothing, or one more utterance, or a running
recogniser. -/
def Pending.afterSpeech (env : Env) (rejects : Bool) (p q : Pending) : Prop :=
  q.timers = p.timers ∧
  ((q.utterances = p.utterances ∧ q.capturing = p.capturing) ∨
   (rejects = false ∧ q.utterances = p.utterances + 1 ∧ q.capturing = p.capturing) ∨
   (rejects = false ∧ q.utterances = p.utterances ∧ q.capturing = true ∧
      env.hasRecognition = true))

/-- Whether an input is a result that the recogniser returns after `stop()`. -/
def isLateResult (s : Sys) : Input → Bool
  | Input.results _ => !s.pending.capturing
  | _ => false

/-- Whether a sequence of events holds no result returned after `stop()`. -/
def noLateResult (env : Env) : Sys → List Input → Bool
  | _, [] => true
  | s, i :: rest => !isLateResult s i && noLateResult env (step env s i) rest

/-- At most one thing is pending, and a running recogniser exists. -/
def Pending.sequential (env : Env) (p : Pending) : Prop :=
  p.tokens ≤ 1 ∧ (p.capturing = true → env.hasRecognition = true)

/-- The world after the greeting, the utterance "How are you" and its reply. -/
def afterReply : World :=
  mountedOnresult sampleEnv [{ isFinal := true, transcript := "How are you" }]
    (some { message := "I am doing well", translation := some "저는 잘 지내요" }) audioPlayed
    greetedWorld

/-- The system once the remote greeting "Hello!" has been recorded and spoken. -/
def greetedSys : Sys :=
  mount sampleEnv true (some { message := "Hello!", translation := none }) audioPlayed
    audioPlayed

/-- The world in which the request for the utterance "hi" is outstanding. -/
def awaitingWorld : World :=
  onresultBegin sampleEnv initialState [{ isFinal := true, transcript := "hi" }] greetedWorld

/-! ## Lemmas on strings -/

theorem trim_eq_nil_of_all (cs : List Char) (h : ∀ c ∈ cs, isJsWhitespace c = true) :
    trim cs = [] := by
  have h1 : cs.dropWhile isJsWhitespace = [] := List.dropWhile_eq_nil_iff.mpr h
  simp [trim, h1]

theorem isBlank_of_all (text : String) (h : ∀ c ∈ text.toList, isJsWhitespace c = true) :
    isBlank text = true := by
  unfold isBlank
  rw [trim_eq_nil_of_all text.toList h]
  rfl

theorem orElse_empty (x : Option String) : orElse x "" = x.getD "" := by
  cases x with
  | none => rfl
  | some s =>
    by_cases h : s = ""
    · simp [orElse, h]
    · simp [orElse, h]

/-! ## Lemmas on the controller operations -/

theorem handleUserSpeech_blank (env : Env) (r : CallState) (text : String)
    (reply : Option Reply) (o : SpeechOutcome) (w : World) (h : isBlank text = true) :
    handleUserSpeech env r text reply o w = w := by
  simp [handleUserSpeech, h]

theorem handleUserSpeech_nonblank (env : Env) (r : CallState) (text : String)
    (reply : Option Reply) (o : SpeechOutcome) (w : World) (h : isBlank text = false) :
    handleUserSpeech env r text reply o w =
      handleUserSpeechResume env r reply o (handleUserSpeechBegin env r text w) := by
  simp [handleUserSpeech, h]

theorem startListening_turns (env : Env) (r : CallState) (w : World) :
    (startListening env r w).state.turns = w.state.turns ∧
    (startListening env r w).state.currentSubtitle = w.state.currentSubtitle := by
  unfold startListening
  split <;> simp [World.put, World.emit, CallState.turns]

theorem speakText_turns (env : Env) (r : CallState) (o : SpeechOutcome) (text : String)
    (w : World) :
    (speakText env r o text w).1.state.turns = w.state.turns ∧
    (speakText env r o text w).1.state.currentSubtitle = text := by
  unfold speakText speakTextTry speakTextCatch
  rcases o with ⟨tts, playOk, synthThrows⟩
  cases tts <;> cases playOk <;> cases synthThrows <;> cases env.hasSpeechSynthesis <;>
    simp [World.put, World.emit, CallState.turns, startListening] <;>
    (repeat' split) <;> simp [World.put, World.emit, CallState.turns]

theorem handleUserSpeechBegin_state (env : Env) (r : CallState) (text : String) (w : World) :
    (handleUserSpeechBegin env r text w).state.turns =
      { messages := r.messages ++ [userMessage r text], turnCount := r.turnCount + 1,
        wordCount := r.wordCount + splitSpaceLength text, koreanSubtitle := "",
        isLoading := true } ∧
    (handleUserSpeechBegin env r text w).trace =
      w.trace ++ (if env.hasRecognition then [Event.recognitionStop] else []) ++
        [Event.saveMessage "user" text none (r.turnCount + 1),
         Event.sendMessage ((r.messages ++ [userMessage r text]).map toApiMessage)] := by
  unfold handleUserSpeechBegin stopListening
  cases env.hasRecognition <;> simp [World.put, World.emit, CallState.turns]

theorem handleUserSpeechResume_rejected (env : Env) (r : CallState) (o : SpeechOutcome)
    (w : World) :
    (handleUserSpeechResume env r none o w).state.turns = { w.state.turns with isLoading := false } ∧
    (handleUserSpeechResume env r none o w).trace = w.trace ++ [Event.startListeningAfter 1000] := by
  simp [handleUserSpeechResume, World.put, World.emit, CallState.turns]

theorem handleUserSpeechResume_resolved (env : Env) (r : CallState) (response : Reply)
    (o : SpeechOutcome) (w : World) :
    (handleUserSpeechResume env r (some response) o w).state.turns =
      { messages := w.state.messages ++ [aiMessage response (r.turnCount + 1 + 1)],
        turnCount := r.turnCount + 1 + 1, wordCount := w.state.wordCount,
        koreanSubtitle := orElse response.translation "", isLoading := false } ∧
    (handleUserSpeechResume env r (some response) o w).state.currentSubtitle
      = response.message := by
  obtain ⟨h1, h2⟩ := speakText_turns env r o response.message
    ((w.put { w.state with
        messages := w.state.messages ++ [aiMessage response (r.turnCount + 1 + 1)],
        turnCount := r.turnCount + 1 + 1,
        currentSubtitle := response.message,
        koreanSubtitle := orElse response.translation "" }).emit
      (Event.saveMessage "assistant" response.message response.translation (r.turnCount + 1 + 1)))
  simp only [handleUserSpeechResume, handleUserSpeechReply]
  constructor
  · split <;>
      simp_all [World.put, World.emit, CallState.turns]
  · split <;>
      simp_all [World.put, World.emit, CallState.turns]

theorem speakText_rejects (env : Env) (r : CallState) (o : SpeechOutcome) (text : String)
    (w : World) : (speakText env r o text w).2 = speechRejects env o := by
  unfold speakText speakTextTry speakTextCatch speechRejects
  rcases o with ⟨tts, playOk, synthThrows⟩
  cases tts with
  | rejected => cases env.hasSpeechSynthesis <;> cases synthThrows <;> simp
  | ok audio =>
    by_cases ha : truthy audio = true <;> cases playOk <;> cases env.hasSpeechSynthesis <;>
      cases synthThrows <;> simp [ha]

theorem startListening_trace (env : Env) (r : CallState) (w : World) (e : Event)
    (h : e ∈ w.trace) : e ∈ (startListening env r w).trace := by
  unfold startListening
  split <;> simp [World.put, World.emit, h]

theorem speakText_requests (env : Env) (r : CallState) (o : SpeechOutcome) (text : String)
    (w : World) : Event.textToSpeech text ∈ (speakText env r o text w).1.trace := by
  unfold speakText speakTextTry speakTextCatch
  rcases o with ⟨tts, playOk, synthThrows⟩
  cases tts with
  | rejected =>
    cases env.hasSpeechSynthesis <;> cases synthThrows <;> simp <;>
      first
        | (apply startListening_trace; simp [World.put, World.emit])
        | simp [World.put, World.emit]
  | ok audio =>
    by_cases ha : truthy audio = true <;> cases playOk <;> cases env.hasSpeechSynthesis <;>
      cases synthThrows <;> simp [ha] <;>
      first
        | (apply startListening_trace; simp [World.put, World.emit])
        | simp [World.put, World.emit]

theorem mockMessage_ne_empty (tutorName : String) : mockMessage tutorName ≠ "" := by
  intro h
  have h1 := congrArg String.length h
  simp only [mockMessage, String.length_append] at h1
  have h2 : "Hello! This is ".length = 15 := by decide
  have h3 : "".length = 0 := by decide
  omega

theorem startListening_listens (env : Env) (r : CallState) (w : World)
    (hr : env.hasRecognition = true) (hm : r.isMuted = false) :
    (startListening env r w).state.isListening = true ∧
    (startListening env r w).trace = w.trace ++ [Event.recognitionStart] := by
  simp [startListening, hr, hm, World.put, World.emit]

theorem startConversationTry_failed (env : Env) (r : CallState) (sessionOk : Bool)
    (greeting : Option Reply) (o : SpeechOutcome) (w : World)
    (h : sessionOk = false ∨ greeting = none) :
    (startConversationTry env r sessionOk greeting o w).2 = true := by
  rcases h with h | h
  · subst h
    simp [startConversationTry]
  · subst h
    cases sessionOk <;> simp [startConversationTry]

theorem startConversationCatch_state (env : Env) (r : CallState) (o : SpeechOutcome)
    (w : World) :
    (startConversationCatch env r o w).state.turns =
      { messages := [mockGreeting env.tutorName], turnCount := 1,
        wordCount := w.state.wordCount, koreanSubtitle := mockTranslation env.tutorName,
        isLoading := w.state.isLoading } ∧
    (startConversationCatch env r o w).state.currentSubtitle = mockMessage env.tutorName ∧
    Event.textToSpeech (mockMessage env.tutorName) ∈ (startConversationCatch env r o w).trace ∧
    (speechRejects env o = true → env.hasRecognition = true → r.isMuted = false →
      (startConversationCatch env r o w).state.isListening = true ∧
      (startConversationCatch env r o w).trace.getLast? = some Event.recognitionStart) := by
  unfold startConversationCatch
  simp only
  generalize hw1 : (w.put { w.state with
    messages := [mockGreeting env.tutorName],
    currentSubtitle := mockMessage env.tutorName,
    koreanSubtitle := mockTranslation env.tutorName,
    turnCount := 1 }) = w1
  have hw1t : w1.state.turns =
      { messages := [mockGreeting env.tutorName], turnCount := 1,
        wordCount := w.state.wordCount, koreanSubtitle := mockTranslation env.tutorName,
        isLoading := w.state.isLoading } := by
    rw [← hw1]; simp [World.put, CallState.turns]
  obtain ⟨h1, h2⟩ := speakText_turns env r o (mockMessage env.tutorName) w1
  have h3 := speakText_requests env r o (mockMessage env.tutorName) w1
  have h4 := speakText_rejects env r o (mockMessage env.tutorName) w1
  obtain ⟨h5, h6⟩ := startListening_turns env r (speakText env r o (mockMessage env.tutorName) w1).1
  rw [h4]
  cases hrej : speechRejects env o
  · simp only [Bool.false_eq_true, if_false]
    exact ⟨by rw [h1, hw1t], h2, h3, fun h => absurd h (by simp)⟩
  · simp only [if_true]
    refine ⟨by rw [h5, h1, hw1t], by rw [h6, h2], startListening_trace _ _ _ _ h3, ?_⟩
    intro _ hr hm
    obtain ⟨h7, h8⟩ := startListening_listens env r
      (speakText env r o (mockMessage env.tutorName) w1).1 hr hm
    exact ⟨h7, by rw [h8]; simp⟩

theorem applySettings_fields (d : TutorSettings) (tutors : List Tutor) (c : TutorSettings)
    (s : EditorState) :
    (applySettings d tutors c s).fields = fieldwiseOr c s.fields := by
  unfold applySettings JsVal.or EditorState.fields fieldwiseOr JsVal.or
  cases c.tutorId.truthy <;> cases c.level.truthy <;> cases c.speed.truthy <;>
    cases c.duration.truthy <;> simp <;> (repeat' split) <;> simp

theorem loadSettings_fields (d : TutorSettings) (tutors : List Tutor) (outcome : ServerOutcome)
    (cache : TutorSettings) :
    (loadSettings d tutors outcome (initialEditor d cache)).state.fields =
      fieldwiseOr ((remoteConfig outcome).getD cache) d := by
  unfold loadSettings
  cases h : remoteConfig outcome with
  | none =>
    have := applySettings_fields d tutors cache
      { (initialEditor d cache).state with isLoading := true }
    simpa [EditorState.fields, initialEditor] using this
  | some cfg =>
    have := applySettings_fields d tutors cfg
      { (initialEditor d cache).state with isLoading := true }
    simpa [EditorState.fields, initialEditor] using this

/-! ## Claims on `handleUserSpeech` -/

/-- C1 (the code departs from the claim): for every controller state, the
non-blank transcript "How  are you" (two spaces after "How") has three
whitespace-delimited tokens, yet `handleUserSpeech` raises `wordCount` by 4;
and " hi" has one token, yet `wordCount` rises by 2.  The count is
`text.split(' ').length`, which counts the empty pieces too. -/
theorem C1_wordCount_counts_empty_pieces (env : Env) (reply : Option Reply)
    (o : SpeechOutcome) (w : World) :
    isBlank "How  are you" = false ∧
    whitespaceTokenCount "How  are you" = 3 ∧
    (handleUserSpeech env w.state "How  are you" reply o w).state.wordCount
      = w.state.wordCount + 4 ∧
    isBlank " hi" = false ∧
    whitespaceTokenCount " hi" = 1 ∧
    (handleUserSpeech env w.state " hi" reply o w).state.wordCount = w.state.wordCount + 2 := by
  have key : ∀ t : String, isBlank t = false →
      (handleUserSpeech env w.state t reply o w).state.wordCount
        = w.state.wordCount + splitSpaceLength t := by
    intro t ht
    rw [handleUserSpeech_nonblank env w.state t reply o w ht]
    have hb := congrArg Turns.wordCount (handleUserSpeechBegin_state env w.state t w).1
    cases reply with
    | none =>
      have hr := congrArg Turns.wordCount
        (handleUserSpeechResume_rejected env w.state o (handleUserSpeechBegin env w.state t w)).1
      simp only [CallState.turns] at hb hr
      rw [hr, hb]
    | some response =>
      have hr := congrArg Turns.wordCount
        (handleUserSpeechResume_resolved env w.state response o
          (handleUserSpeechBegin env w.state t w)).1
      simp only [CallState.turns] at hb hr
      rw [hr, hb]
  refine ⟨by decide, by decide, ?_, by decide, by decide, ?_⟩
  · rw [key _ (by decide)]
    have : splitSpaceLength "How  are you" = 4 := by decide
    rw [this]
  · rw [key _ (by decide)]
    have : splitSpaceLength " hi" = 2 := by decide
    rw [this]

/-- C2: for every controller state and every transcript whose characters are
all whitespace (the empty transcript included), `handleUserSpeech` returns the
world unchanged: no state cell changes and nothing is added to the trace, so no
request is issued and capture is not stopped.  When such a transcript arrives
through `onresult`, only the `transcript` cell is written. -/
theorem C2_blank_transcript_changes_nothing (env : Env) (r : CallState) (text : String)
    (reply : Option Reply) (o : SpeechOutcome) (w : World)
    (h : ∀ c ∈ text.toList, isJsWhitespace c = true) :
    handleUserSpeech env r text reply o w = w ∧
    ∀ results : List SpeechResult, finalTranscript results = text →
      onresult env r results reply o w =
        w.put { w.state with
          transcript := if interimTranscript results != "" then interimTranscript results
                        else text } := by
  have hb := isBlank_of_all text h
  refine ⟨handleUserSpeech_blank env r text reply o w hb, ?_⟩
  intro results hres
  simp [onresult, hres, hb]

/-- Witness for C2 at the transcript made of a space, a tab and a newline. -/
theorem C2_blank_transcript_changes_nothing_witness :
    (∀ c ∈ (" \t\n" : String).toList, isJsWhitespace c = true) ∧
    (handleUserSpeech sampleEnv greetedWorld.state " \t\n" none audioPlayed greetedWorld
        = greetedWorld ∧
      ∀ results : List SpeechResult, finalTranscript results = " \t\n" →
        onresult sampleEnv greetedWorld.state results none audioPlayed greetedWorld =
          greetedWorld.put { greetedWorld.state with
            transcript := if interimTranscript results != "" then interimTranscript results
                          else " \t\n" }) :=
  ⟨by decide,
   C2_blank_transcript_changes_nothing sampleEnv greetedWorld.state " \t\n" none audioPlayed
     greetedWorld (by decide)⟩

/-- C7 (the code departs from the claim): the handler the recogniser calls
belongs to the first render, so whatever the live state holds, after the
transcript "hi" and a rejected request `messages` is the user turn alone and
`turnCount` is 1.  After the recorded greeting (one message, `turnCount` 1)
the greeting is therefore dropped and `turnCount` stays 1; no assistant turn is
recorded, `isLoading` is false and one restart is scheduled after 1000 ms. -/
theorem C7_mounted_handler_drops_previous_turns (env : Env) (o : SpeechOutcome) (w : World) :
    (handleUserSpeech env initialState "hi" none o w).state.messages
      = [userMessage initialState "hi"] ∧
    (handleUserSpeech env initialState "hi" none o w).state.turnCount = 1 ∧
    (handleUserSpeech env initialState "hi" none o w).state.isLoading = false ∧
    greetedWorld.state.messages
      = [aiMessage { message := "Hello!", translation := none } 1] ∧
    greetedWorld.state.turnCount = 1 ∧
    (mountedOnresult sampleEnv [{ isFinal := true, transcript := "hi" }] none audioPlayed
        greetedWorld).state.messages = [userMessage initialState "hi"] ∧
    (mountedOnresult sampleEnv [{ isFinal := true, transcript := "hi" }] none audioPlayed
        greetedWorld).state.turnCount = 1 ∧
    added greetedWorld
        (mountedOnresult sampleEnv [{ isFinal := true, transcript := "hi" }] none audioPlayed
          greetedWorld)
      = [Event.recognitionStop, Event.saveMessage "user" "hi" none 1,
         Event.sendMessage [{ role := "user", content := "hi" }],
         Event.startListeningAfter 1000] := by
  have ht : isBlank "hi" = false := by decide
  obtain ⟨h1, _⟩ := handleUserSpeechBegin_state env initialState "hi" w
  obtain ⟨h3, _⟩ :=
    handleUserSpeechResume_rejected env initialState o (handleUserSpeechBegin env initialState "hi" w)
  have hm := congrArg Turns.messages h3
  have hc := congrArg Turns.turnCount h3
  have hl := congrArg Turns.isLoading h3
  have hm1 := congrArg Turns.messages h1
  have hc1 := congrArg Turns.turnCount h1
  simp only [CallState.turns] at hm hc hl hm1 hc1
  rw [handleUserSpeech_nonblank env initialState "hi" none o w ht]
  refine ⟨by rw [hm, hm1]; rfl, by rw [hc, hc1]; rfl, hl, by decide, by decide, by decide,
    by decide, by decide⟩

/-- C10 (the code departs from the claim): the handler the recogniser calls
belongs to the first render.  After the recorded greeting (one message,
`turnCount` 1), the transcript "How are you" and the reply "I am doing well"
leave `messages` holding the user turn and the assistant turn only, numbered 1
and 2, and `turnCount` 2 instead of 3; the subtitles are the reply and its
translation. -/
theorem C10_mounted_handler_records_two_turns_only :
    greetedWorld.state.messages.map (fun m => (m.role, m.content))
      = [(some "assistant", "Hello!")] ∧
    greetedWorld.state.turnCount = 1 ∧
    afterReply.state.messages
      = [userMessage initialState "How are you",
         aiMessage { message := "I am doing well", translation := some "저는 잘 지내요" } 2] ∧
    afterReply.state.messages.map (fun m => (m.role, m.content))
      = [(some "user", "How are you"), (some "assistant", "I am doing well")] ∧
    afterReply.state.turnCount = 2 ∧
    afterReply.state.currentSubtitle = "I am doing well" ∧
    afterReply.state.koreanSubtitle = "저는 잘 지내요" := by
  decide

/-! ## Claims on `speakText`, `startConversation` and `handleEndCall` -/

/-- C3 (counterexample): when `textToSpeech` resolves without an audio payload
for the text "Hello!", `speakText` makes no call to the browser synthesiser:
the only calls are the remote request and the start of the recogniser, and on
return `isSpeaking` is already false and `isListening` true. -/
theorem C3_no_audio_goes_straight_to_listening :
    (speakText sampleEnv initialState noAudio "Hello!" initialWorld).1.trace
      = [Event.textToSpeech "Hello!", Event.recognitionStart] ∧
    Event.speak "Hello!" (utteranceRate sampleEnv)
      ∉ (speakText sampleEnv initialState noAudio "Hello!" initialWorld).1.trace ∧
    (speakText sampleEnv initialState noAudio "Hello!" initialWorld).1.state.isSpeaking = false ∧
    (speakText sampleEnv initialState noAudio "Hello!" initialWorld).1.state.isListening = true := by
  decide

/-- C3 (amended): for every text, when `textToSpeech` resolves with an absent
or empty audio payload, `speakText` plays nothing and starts no fallback
synthesis: it resolves, the trace gains the remote request followed only by
the start of the recogniser (when there is a recogniser and the closure is not
muted), `isSpeaking` is false, `isListening` is set by `startListening`, and
`currentSubtitle` is the text. -/
theorem C3_no_audio_completes_at_once (env : Env) (r : CallState) (text : String)
    (audio : Option String) (playOk synthThrows : Bool) (w : World)
    (h : truthy audio = false) :
    (speakText env r { tts := TtsResult.ok audio, playOk := playOk, synthThrows := synthThrows }
        text w).2 = false ∧
    (speakText env r { tts := TtsResult.ok audio, playOk := playOk, synthThrows := synthThrows }
        text w).1.trace =
      w.trace ++ [Event.textToSpeech text] ++
        (if env.hasRecognition && !r.isMuted then [Event.recognitionStart] else []) ∧
    (speakText env r { tts := TtsResult.ok audio, playOk := playOk, synthThrows := synthThrows }
        text w).1.state.isSpeaking = false ∧
    (speakText env r { tts := TtsResult.ok audio, playOk := playOk, synthThrows := synthThrows }
        text w).1.state.isListening =
      (if env.hasRecognition && !r.isMuted then true else w.state.isListening) ∧
    (speakText env r { tts := TtsResult.ok audio, playOk := playOk, synthThrows := synthThrows }
        text w).1.state.currentSubtitle = text := by
  simp only [speakText, speakTextTry, h, startListening]
  cases env.hasRecognition <;> cases r.isMuted <;> simp [World.put, World.emit]

/-- Witness for the amended C3 at an absent payload. -/
theorem C3_no_audio_completes_at_once_witness :
    truthy none = false ∧
    (speakText sampleEnv initialState
        { tts := TtsResult.ok none, playOk := true, synthThrows := false }
        "Hello!" initialWorld).1.state.isSpeaking = false :=
  ⟨rfl,
   (C3_no_audio_completes_at_once sampleEnv initialState "Hello!" none true false initialWorld
      rfl).2.2.1⟩

/-- C5: for every stored history `h` and every controller state,
`handleEndCall` stores the first 10 elements of `e :: h`, where `e` is the
entry built from the current call; the stored list has length
`min (|h| + 1) 10`, at most 10, and is `e` followed by the first 9 elements of
`h` in their order. -/
theorem C5_history_is_capped_at_ten (env : Env) (now : Clock) (w : World)
    (h : List HistoryEntry) :
    (handleEndCall env w.state now
        { w with storage := { w.storage with callHistory := some h } }).storage.callHistory
      = some ((historyEntry env w.state now :: h).take 10) ∧
    ((historyEntry env w.state now :: h).take 10).length = min (h.length + 1) 10 ∧
    ((historyEntry env w.state now :: h).take 10).length ≤ 10 ∧
    (historyEntry env w.state now :: h).take 10 = historyEntry env w.state now :: h.take 9 ∧
    (historyEntry env w.state now).duration = formatTime w.state.callTime ∧
    (historyEntry env w.state now).words = w.state.wordCount ∧
    (historyEntry env w.state now).tutorName = env.tutorName ∧
    (historyEntry env w.state now).sessionId = env.sessionId := by
  refine ⟨?_, ?_, ?_, rfl, rfl, rfl, rfl, rfl⟩
  · unfold handleEndCall
    cases env.hasRecognition <;> cases w.audioRef <;> cases env.hasSpeechSynthesis <;>
      cases w.state.sessionStarted <;> simp [World.emit]
  · rw [List.length_take, List.length_cons]
    omega
  · rw [List.length_take]
    omega

/-- C6: for every tutor name and configuration, when `startSession` or the
greeting request fails, `startConversation` ends with `messages` holding
exactly the fallback greeting (an assistant turn), `turnCount` 1, `isLoading`
false, and `currentSubtitle` equal to the non-empty fallback line built from
the tutor name; remote synthesis of that line has been requested; and when
speech output rejects, `startListening` has run: with a recogniser and an
unmuted closure the controller is listening and the last call is the start of
the recogniser. -/
theorem C6_failed_greeting_falls_back (env : Env) (r : CallState) (sessionOk : Bool)
    (greeting : Option Reply) (o1 o2 : SpeechOutcome) (w : World)
    (h : sessionOk = false ∨ greeting = none) :
    (startConversation env r sessionOk greeting o1 o2 w).state.messages
      = [mockGreeting env.tutorName] ∧
    (toApiMessage (mockGreeting env.tutorName)).role = "assistant" ∧
    (startConversation env r sessionOk greeting o1 o2 w).state.turnCount = 1 ∧
    (startConversation env r sessionOk greeting o1 o2 w).state.isLoading = false ∧
    (startConversation env r sessionOk greeting o1 o2 w).state.currentSubtitle
      = mockMessage env.tutorName ∧
    (startConversation env r sessionOk greeting o1 o2 w).state.currentSubtitle ≠ "" ∧
    Event.textToSpeech (mockMessage env.tutorName)
      ∈ (startConversation env r sessionOk greeting o1 o2 w).trace ∧
    (speechRejects env o2 = true → env.hasRecognition = true → r.isMuted = false →
      (startConversation env r sessionOk greeting o1 o2 w).state.isListening = true ∧
      (startConversation env r sessionOk greeting o1 o2 w).trace.getLast?
        = some Event.recognitionStart) := by
  have ht := startConversationTry_failed env r sessionOk greeting o1
    (w.put { w.state with isLoading := true }) h
  obtain ⟨h1, h2, h3, h4⟩ := startConversationCatch_state env r o2
    (startConversationTry env r sessionOk greeting o1 (w.put { w.state with isLoading := true })).1
  have hm := congrArg Turns.messages h1
  have hc := congrArg Turns.turnCount h1
  simp only [CallState.turns] at hm hc
  simp only [startConversation, ht, if_true]
  simp only [World.put]
  exact ⟨hm, rfl, hc, trivial, h2,
    fun hh => mockMessage_ne_empty env.tutorName (h2.symm.trans hh), h3, h4⟩

/-- Witness for C6: `startSession` fails and speech output fails as well. -/
theorem C6_failed_greeting_falls_back_witness :
    (false = false ∨ (none : Option Reply) = none) ∧
    (startConversation sampleEnv initialState false none audioPlayed speechFails
        initialWorld).state.turnCount = 1 ∧
    (startConversation sampleEnv initialState false none audioPlayed speechFails
        initialWorld).state.isListening = true :=
  ⟨Or.inl rfl,
   (C6_failed_greeting_falls_back sampleEnv initialState false none audioPlayed speechFails
      initialWorld (Or.inl rfl)).2.2.1,
   ((C6_failed_greeting_falls_back sampleEnv initialState false none audioPlayed speechFails
      initialWorld (Or.inl rfl)).2.2.2.2.2.2.2 (by decide) (by decide) (by decide)).1⟩

/-! ## Claims on the handler registered at mount -/

/-- C8 (the code departs from the claim): after the greeting "Hello!" has been
recorded, the final transcript "hi" makes the mounted handler send a history
that holds the new user entry only; the recorded greeting is not in it. -/
theorem C8_mounted_handler_sends_only_new_turn :
    greetedWorld.state.messages.map toApiMessage
      = [{ role := "assistant", content := "Hello!" }] ∧
    (mountedOnresult sampleEnv [{ isFinal := true, transcript := "hi" }] none audioPlayed
        greetedWorld).trace =
      greetedWorld.trace ++
        [Event.recognitionStop, Event.saveMessage "user" "hi" none 1,
         Event.sendMessage [{ role := "user", content := "hi" }],
         Event.startListeningAfter 1000] ∧
    Event.sendMessage [{ role := "assistant", content := "Hello!" },
                       { role := "user", content := "hi" }]
      ∉ (mountedOnresult sampleEnv [{ isFinal := true, transcript := "hi" }] none audioPlayed
          greetedWorld).trace := by
  decide

/-- C9 (the code departs from the claim): after the greeting (turn 1), the
utterance "hi" is recorded by the mounted handler as turn 1 again and its reply
as turn 2, the greeting being dropped from `messages`; a second utterance whose
request is rejected is recorded as turn 1 once more and `turnCount` falls from
2 to 1. -/
theorem C9_mounted_handler_restarts_numbering :
    greetedWorld.state.turnCount = 1 ∧
    greetedWorld.state.messages.map (fun m => (m.role, m.turnNumber))
      = [(some "assistant", some 1)] ∧
    afterFirstExchange.state.messages.map (fun m => (m.role, m.turnNumber))
      = [(some "user", some 1), (some "assistant", some 2)] ∧
    afterFirstExchange.state.turnCount = 2 ∧
    (mountedOnresult sampleEnv [{ isFinal := true, transcript := "ok" }] none audioPlayed
        afterFirstExchange).state.messages.map (fun m => (m.role, m.turnNumber))
      = [(some "user", some 1)] ∧
    (mountedOnresult sampleEnv [{ isFinal := true, transcript := "ok" }] none audioPlayed
        afterFirstExchange).state.turnCount = 1 := by
  decide

/-! ## Claims on `loadSettings` -/

/-- C4 (counterexample): the remote store returns a configuration that has no
`tutorId`, while the local cache holds "james"; after `loadSettings` the tutor
is the default "gwen", which is neither the remote value nor the cached one. -/
theorem C4_remote_config_without_field_keeps_default :
    remoteConfig (ServerOutcome.resolved true (some remoteWithoutTutor))
      = some remoteWithoutTutor ∧
    remoteWithoutTutor.tutorId = JsVal.undefined ∧
    sampleCache.tutorId = JsVal.str "james" ∧
    (loadSettings sampleDefaults sampleTutors
        (ServerOutcome.resolved true (some remoteWithoutTutor))
        (initialEditor sampleDefaults sampleCache)).state.selectedTutor = JsVal.str "gwen" ∧
    (loadSettings sampleDefaults sampleTutors
        (ServerOutcome.resolved true (some remoteWithoutTutor))
        (initialEditor sampleDefaults sampleCache)).state.selectedTutor
      ≠ remoteWithoutTutor.tutorId := by
  decide

/-- C4 (amended): for every remote response and local cache, `loadSettings`
resolves the four fields by tier.  With a remote configuration each field is
the remote value when that value is truthy and the default otherwise, whatever
the cache holds; with no remote configuration (rejected call, `success` false,
or no `settings`) each field is the cached value when that value is truthy and
the default otherwise; with no remote configuration and an empty cache all four
fields are the defaults. -/
theorem C4_loadSettings_resolves_by_tier (d : TutorSettings) (tutors : List Tutor)
    (cfg cache : TutorSettings) (success : Bool) (settings : Option TutorSettings) :
    (loadSettings d tutors (ServerOutcome.resolved true (some cfg))
        (initialEditor d cache)).state.fields = fieldwiseOr cfg d ∧
    (loadSettings d tutors ServerOutcome.rejected (initialEditor d cache)).state.fields
      = fieldwiseOr cache d ∧
    (loadSettings d tutors (ServerOutcome.resolved success none)
        (initialEditor d cache)).state.fields = fieldwiseOr cache d ∧
    (loadSettings d tutors (ServerOutcome.resolved false settings)
        (initialEditor d cache)).state.fields = fieldwiseOr cache d ∧
    (loadSettings d tutors ServerOutcome.rejected (initialEditor d emptyCache)).state.fields
      = d ∧
    (loadSettings d tutors (ServerOutcome.resolved success none)
        (initialEditor d emptyCache)).state.fields = d := by
  have hnone : remoteConfig (ServerOutcome.resolved success none) = none := by
    cases success <;> rfl
  have hempty : fieldwiseOr emptyCache d = d := rfl
  refine ⟨?_, ?_, ?_, ?_, ?_, ?_⟩
  · rw [loadSettings_fields]; rfl
  · rw [loadSettings_fields]; rfl
  · rw [loadSettings_fields, hnone]; rfl
  · rw [loadSettings_fields]; rfl
  · rw [loadSettings_fields]; exact hempty
  · rw [loadSettings_fields, hnone]; exact hempty

theorem JsVal.or_truthy (a b : JsVal) (hb : b.truthy = true) : (a.or b).truthy = true := by
  unfold JsVal.or
  cases ha : a.truthy <;> simp [ha, hb]

theorem fieldwiseOr_allTruthy (src d : TutorSettings) (hd : allTruthy d = true) :
    allTruthy (fieldwiseOr src d) = true := by
  simp only [allTruthy, Bool.and_eq_true] at hd ⊢
  obtain ⟨⟨⟨h1, h2⟩, h3⟩, h4⟩ := hd
  exact ⟨⟨⟨JsVal.or_truthy _ _ h1, JsVal.or_truthy _ _ h2⟩, JsVal.or_truthy _ _ h3⟩,
    JsVal.or_truthy _ _ h4⟩

theorem JsVal.or_of (P : JsVal → Bool) (a b : JsVal) (hb : P b = true)
    (ha : (!a.truthy || P a) = true) : P (a.or b) = true := by
  unfold JsVal.or
  cases h : a.truthy <;> simp_all

theorem fieldwiseOr_valid (cat : Catalog) (src d : TutorSettings)
    (hd : validSettings cat d = true) (hs : validWhereSet cat src = true) :
    validSettings cat (fieldwiseOr src d) = true := by
  have hall : allTruthy (fieldwiseOr src d) = true := by
    apply fieldwiseOr_allTruthy
    simp only [validSettings, Bool.and_eq_true] at hd
    exact hd.1.1.1.1
  simp only [validSettings, validWhereSet, Bool.and_eq_true] at hd hs ⊢
  obtain ⟨⟨⟨⟨_, d5⟩, d6⟩, d7⟩, d8⟩ := hd
  obtain ⟨⟨⟨s1, s2⟩, s3⟩, s4⟩ := hs
  exact ⟨⟨⟨⟨hall, JsVal.or_of (isTutorId cat.tutors) _ _ d5 s1⟩,
    JsVal.or_of (fun v => cat.levels.contains v) _ _ d6 s2⟩,
    JsVal.or_of (fun v => cat.speeds.contains v) _ _ d7 s3⟩,
    JsVal.or_of (fun v => cat.durations.contains v) _ _ d8 s4⟩

/-! ## Claims on the settings editor and on `toggleMute` -/

/-- C11 (counterexample): with valid defaults, a remote configuration whose
tutor id is "nobody", the id of no persona, is loaded as it is: after
`loadSettings` the selected tutor is "nobody" and the configuration is not
valid. -/
theorem C11_unknown_remote_tutor_is_loaded :
    validSettings sampleCatalog sampleDefaults = true ∧
    (loadSettings sampleDefaults sampleCatalog.tutors
        (ServerOutcome.resolved true (some remoteUnknownTutor))
        (initialEditor sampleDefaults sampleCache)).state.selectedTutor = JsVal.str "nobody" ∧
    isTutorId sampleCatalog.tutors (JsVal.str "nobody") = false ∧
    validSettings sampleCatalog
      (loadSettings sampleDefaults sampleCatalog.tutors
        (ServerOutcome.resolved true (some remoteUnknownTutor))
        (initialEditor sampleDefaults sampleCache)).state.fields = false := by
  decide

/-- C11 (amended): assuming `DEFAULT_SETTINGS` is valid, for every remote
response and every local cache content, after `loadSettings` all four fields
are non-empty (truthy); and they form a valid configuration whenever every
truthy field of the object that is loaded (the remote configuration when there
is one, the local cache otherwise) is an offered id. -/
theorem C11_loadSettings_valid_when_source_is (cat : Catalog) (d : TutorSettings)
    (outcome : ServerOutcome) (cache : TutorSettings)
    (hd : validSettings cat d = true) :
    allTruthy (loadSettings d cat.tutors outcome (initialEditor d cache)).state.fields = true ∧
    (validWhereSet cat ((remoteConfig outcome).getD cache) = true →
      validSettings cat (loadSettings d cat.tutors outcome (initialEditor d cache)).state.fields
        = true) := by
  rw [loadSettings_fields]
  have hd1 : allTruthy d = true := by
    simp only [validSettings, Bool.and_eq_true] at hd
    exact hd.1.1.1.1
  exact ⟨fieldwiseOr_allTruthy _ d hd1, fun hs => fieldwiseOr_valid cat _ d hd hs⟩

/-- Witness for the amended C11: the remote call fails and the cache holds
valid ids. -/
theorem C11_loadSettings_valid_when_source_is_witness :
    validSettings sampleCatalog sampleDefaults = true ∧
    validSettings sampleCatalog
      (loadSettings sampleDefaults sampleCatalog.tutors ServerOutcome.rejected
        (initialEditor sampleDefaults sampleCache)).state.fields = true :=
  ⟨by decide,
   (C11_loadSettings_valid_when_source_is sampleCatalog sampleDefaults ServerOutcome.rejected
      sampleCache (by decide)).2 (by decide)⟩

/-- C13: for every editor state in which no save is in progress, `handleSave`
first writes the settings record to the local cache, then attempts the remote
save, then clears `isSaving` and navigates back once; the result does not
depend on the outcome of the remote save.  The record carries the selected
tutor id, level, speed and duration, and the name, accent and gender of the
persona with that id. -/
theorem C13_handleSave_local_first (tutors : List Tutor) (e : SaveWorld) (saveOk : Bool)
    (h : e.state.isSaving = false) :
    (handleSave tutors e.state saveOk e).stored = some (settingsRecord tutors e.state) ∧
    (handleSave tutors e.state saveOk e).log =
      e.log ++ [EditorEvent.saveTutorSettings (settingsRecord tutors e.state),
                EditorEvent.saveSettingsToServer (settingsRecord tutors e.state),
                EditorEvent.navigate (-1)] ∧
    (handleSave tutors e.state saveOk e).state.isSaving = false ∧
    handleSave tutors e.state true e = handleSave tutors e.state false e ∧
    (settingsRecord tutors e.state).tutorId = e.state.selectedTutor ∧
    (settingsRecord tutors e.state).level = e.state.level ∧
    (settingsRecord tutors e.state).speed = e.state.speed ∧
    (settingsRecord tutors e.state).duration = e.state.duration ∧
    (∀ t : Tutor, tutors.find? (fun t => JsVal.str t.id = e.state.selectedTutor) = some t →
      (settingsRecord tutors e.state).tutorName = orElse (some t.name) "Gwen" ∧
      (settingsRecord tutors e.state).accent = orElse (some t.accent) "us" ∧
      (settingsRecord tutors e.state).gender = orElse (some t.gender) "female") := by
  refine ⟨?_, ?_, ?_, ?_, rfl, rfl, rfl, rfl, ?_⟩
  · cases saveOk <;> simp [handleSave, h]
  · cases saveOk <;> simp [handleSave, h]
  · cases saveOk <;> simp [handleSave, h]
  · simp [handleSave, h]
  · intro t ht
    simp [settingsRecord, ht]

/-- Witness for C13: James is selected and the remote save fails. -/
theorem C13_handleSave_local_first_witness :
    sampleSaveWorld.state.isSaving = false ∧
    (handleSave sampleTutors sampleSaveWorld.state false sampleSaveWorld).stored
      = some (settingsRecord sampleTutors sampleSaveWorld.state) ∧
    (handleSave sampleTutors sampleSaveWorld.state false sampleSaveWorld).state.isSaving = false :=
  ⟨rfl,
   (C13_handleSave_local_first sampleTutors sampleSaveWorld false rfl).1,
   (C13_handleSave_local_first sampleTutors sampleSaveWorld false rfl).2.2.1⟩

/-- C15 (the code departs from the claim): from every state with the
microphone muted, `toggleMute` only clears `isMuted`; the `startListening` it
calls reads `isMuted = true` from the same closure and does nothing, so the
recogniser is not started, `isListening` keeps its value and the transcript is
not cleared.  Muting and then unmuting from the listening state after the
greeting leaves the controller unmuted and not listening. -/
theorem C15_unmute_does_not_resume_capture (env : Env) (w : World) :
    toggleMute env { w.state with isMuted := true } (w.put { w.state with isMuted := true })
      = w.put { w.state with isMuted := false } ∧
    greetedWorld.state.isListening = true ∧
    greetedWorld.state.isMuted = false ∧
    mutedWorld.state.isMuted = true ∧
    mutedWorld.state.isListening = false ∧
    sampleEnv.hasRecognition = true ∧
    (toggleMute sampleEnv mutedWorld.state mutedWorld).state.isMuted = false ∧
    (toggleMute sampleEnv mutedWorld.state mutedWorld).state.isListening = false ∧
    (toggleMute sampleEnv mutedWorld.state mutedWorld).trace = mutedWorld.trace := by
  refine ⟨?_, by decide, by decide, by decide, by decide, by decide, by decide, by decide,
    by decide⟩
  simp [toggleMute, startListening, World.put]

/-! ## Lemmas on decimal numerals -/

theorem digitChar_isDigit (d : Nat) (h : d < 10) :
    (Nat.digitChar d).isDigit = true ∧ digitValue (Nat.digitChar d) = d := by
  interval_cases d <;> decide

theorem decimal_lt (n : Nat) (h : n < 10) : decimal n = [Nat.digitChar n] := by
  rw [decimal]; simp [h]

theorem decimal_ge (n : Nat) (h : 10 ≤ n) :
    decimal n = decimal (n / 10) ++ [Nat.digitChar (n % 10)] := by
  rw [decimal]; simp [Nat.not_lt.mpr h]

theorem toDigitsCore_eq_decimal (n : Nat) :
    ∀ fuel ds, n < fuel → Nat.toDigitsCore 10 fuel n ds = decimal n ++ ds := by
  induction n using Nat.strong_induction_on with
  | _ n ih =>
    intro fuel ds hf
    cases fuel with
    | zero => omega
    | succ f =>
      simp only [Nat.toDigitsCore]
      by_cases h0 : n / 10 = 0
      · have hn : n < 10 := by omega
        simp [h0, decimal_lt n hn, Nat.mod_eq_of_lt hn]
      · have hn : 10 ≤ n := by omega
        simp only [h0, if_false]
        rw [ih (n / 10) (by omega) f _ (by omega), decimal_ge n hn]
        simp

theorem toString_toList (n : Nat) : (toString n).toList = decimal n := by
  show Nat.toDigitsCore 10 (n + 1) n [] = decimal n
  rw [toDigitsCore_eq_decimal n (n + 1) [] (by omega)]
  simp

theorem readDecimal_append (cs : List Char) (c : Char) :
    readDecimal (cs ++ [c]) = 10 * readDecimal cs + digitValue c := by
  simp [readDecimal, List.foldl_append]

theorem decimal_spec (n : Nat) :
    readDecimal (decimal n) = n ∧ (decimal n).all Char.isDigit = true ∧
    1 ≤ (decimal n).length := by
  induction n using Nat.strong_induction_on with
  | _ n ih =>
    by_cases hn : n < 10
    · rw [decimal_lt n hn]
      obtain ⟨h1, h2⟩ := digitChar_isDigit n hn
      simp [readDecimal, h1, h2]
    · have hge : 10 ≤ n := by omega
      obtain ⟨i1, i2, i3⟩ := ih (n / 10) (by omega)
      obtain ⟨h1, h2⟩ := digitChar_isDigit (n % 10) (Nat.mod_lt _ (by omega))
      rw [decimal_ge n hge, readDecimal_append, i1, h2]
      refine ⟨by omega, ?_, by simp⟩
      simp [List.all_append, i2, h1]

theorem decimal_length (n : Nat) :
    (n < 10 → (decimal n).length = 1) ∧ (10 ≤ n → n < 100 → (decimal n).length = 2) ∧
    (100 ≤ n → 3 ≤ (decimal n).length) := by
  refine ⟨fun h => by rw [decimal_lt n h]; rfl, fun h1 h2 => ?_, fun h => ?_⟩
  · rw [decimal_ge n h1, decimal_lt (n / 10) (by omega)]; rfl
  · have h2 : 10 ≤ n / 10 := by omega
    rw [decimal_ge n (by omega), decimal_ge (n / 10) h2]
    have := (decimal_spec (n / 10 / 10)).2.2
    simp only [List.length_append, List.length_singleton]
    omega

theorem takeWhile_digits (l r : List Char) (h : l.all Char.isDigit = true) :
    (l ++ ':' :: r).takeWhile (fun c => c != ':') = l ∧
    (l ++ ':' :: r).dropWhile (fun c => c != ':') = ':' :: r := by
  induction l with
  | nil => simp
  | cons c cs ih =>
    simp only [List.all_cons, Bool.and_eq_true] at h
    have hc : (c != ':') = true := by
      have h1 := h.1
      simp only [Char.isDigit, Bool.and_eq_true, decide_eq_true_eq] at h1
      have h2 : c ≠ ':' := by
        intro he
        rw [he] at h1
        exact absurd h1.2 (by decide)
      simpa using h2
    obtain ⟨i1, i2⟩ := ih h.2
    simp [List.takeWhile, List.dropWhile, hc, i1, i2]

theorem padded_spec (n : Nat) :
    (padStart2 (toString n)).toList
      = List.replicate (2 - (decimal n).length) '0' ++ decimal n ∧
    (List.replicate (2 - (decimal n).length) '0' ++ decimal n).all Char.isDigit = true ∧
    readDecimal (List.replicate (2 - (decimal n).length) '0' ++ decimal n) = n ∧
    2 ≤ (List.replicate (2 - (decimal n).length) '0' ++ decimal n).length ∧
    (n < 100 → (List.replicate (2 - (decimal n).length) '0' ++ decimal n).length = 2) := by
  obtain ⟨h1, h2, h3⟩ := decimal_spec n
  obtain ⟨l1, l2, l3⟩ := decimal_length n
  have hlen : (toString n).length = (decimal n).length := by
    rw [← toString_toList n]; rfl
  refine ⟨?_, ?_, ?_, ?_, ?_⟩
  · have ht : (toString n).data = decimal n := toString_toList n
    unfold padStart2
    rw [hlen, String.toList, String.data_append, ht]
  · rw [List.all_append, h2]
    simp
  · by_cases hn : n < 10
    · rw [l1 hn, decimal_lt n hn]
      obtain ⟨_, d2⟩ := digitChar_isDigit n hn
      have z : digitValue '0' = 0 := by decide
      simp [readDecimal, d2, z]
    · have : 2 - (decimal n).length = 0 := by
        by_cases h100 : n < 100
        · rw [l2 (by omega) h100]
        · have := l3 (by omega)
          omega
      rw [this]
      simpa using h1
  · simp only [List.length_append, List.length_replicate]
    omega
  · intro hn
    simp only [List.length_append, List.length_replicate]
    by_cases h10 : n < 10
    · rw [l1 h10]
    · rw [l2 (by omega) hn]

/-! ## Lemmas on double arithmetic below 2^53 -/

theorem roundHalfEven_cases (a b : Nat) :
    roundHalfEven a b = a / b ∨ (roundHalfEven a b = a / b + 1 ∧ b ≤ 2 * (a % b)) := by
  unfold roundHalfEven
  simp only
  split
  · left; rfl
  · split
    · right; exact ⟨rfl, by omega⟩
    · split
      · left; rfl
      · right; exact ⟨rfl, by omega⟩

theorem roundHalfEven_one (a : Nat) : roundHalfEven a 1 = a := by
  simp [roundHalfEven, Nat.mod_one]

theorem shiftDown_zero (fuel a bound : Nat) (h : a < bound) :
    shiftDown (fuel + 1) a bound = 0 := by
  simp [shiftDown, h]

theorem shiftDown_succ (fuel a bound : Nat) (h : bound ≤ a) :
    shiftDown (fuel + 1) a bound = shiftDown fuel a (2 * bound) + 1 := by
  rw [shiftDown]
  simp [Nat.not_lt.mpr h]

theorem shiftDown_spec (fuel : Nat) : ∀ a bound : Nat,
    shiftDown fuel a bound = 0 ∨ bound * 2 ^ (shiftDown fuel a bound - 1) ≤ a := by
  induction fuel with
  | zero => intro a bound; left; rfl
  | succ n ih =>
    intro a bound
    by_cases h : a < bound
    · left; simp [shiftDown, h]
    · right
      simp only [shiftDown, h, if_false, Nat.add_sub_cancel]
      have hi := ih a (2 * bound)
      generalize shiftDown n a (2 * bound) = r at hi
      cases r with
      | zero => simp; omega
      | succ m =>
        rcases hi with h0 | h1
        · omega
        · simp only [Nat.add_sub_cancel] at h1
          have : bound * 2 ^ (m + 1) = 2 * bound * 2 ^ m := by ring
          rw [this]; exact h1

theorem toDouble_small (c : Nat) (h : c < 2 ^ 53) : toDouble c = c := by
  unfold toDouble
  simp only
  rw [show (1100 : Nat) = 1099 + 1 from rfl, shiftDown_zero 1099 c (2 ^ 53) h]
  simp [roundHalfEven_one]

theorem toDouble_large (c : Nat) (h : 2 ^ 53 ≤ c) : 2 ^ 53 ≤ toDouble c := by
  unfold toDouble
  simp only
  have hs := shiftDown_spec 1100 c (2 ^ 53)
  have hpos : shiftDown 1100 c (2 ^ 53) ≠ 0 := by
    rw [show (1100 : Nat) = 1099 + 1 from rfl, shiftDown_succ 1099 c (2 ^ 53) h]
    omega
  generalize shiftDown 1100 c (2 ^ 53) = e at hs hpos
  rcases hs with h0 | h1
  · exact absurd h0 hpos
  · obtain ⟨m, rfl⟩ : ∃ m, e = m + 1 := ⟨e - 1, by omega⟩
    simp only [Nat.add_sub_cancel] at h1
    have hq : 2 ^ 52 ≤ c / 2 ^ (m + 1) := by
      rw [Nat.le_div_iff_mul_le (by positivity)]
      calc 2 ^ 52 * 2 ^ (m + 1) = 2 ^ 53 * 2 ^ m := by ring
        _ ≤ c := h1
    have hr : c / 2 ^ (m + 1) ≤ roundHalfEven c (2 ^ (m + 1)) := by
      rcases roundHalfEven_cases c (2 ^ (m + 1)) with h | ⟨h, _⟩ <;> omega
    have hp : 2 ≤ 2 ^ (m + 1) := by
      calc 2 = 2 ^ 1 := rfl
        _ ≤ 2 ^ (m + 1) := Nat.pow_le_pow_right (by decide) (by omega)
    calc 2 ^ 53 = 2 ^ 52 * 2 := by norm_num
      _ ≤ roundHalfEven c (2 ^ (m + 1)) * 2 ^ (m + 1) := Nat.mul_le_mul (hq.trans hr) hp

theorem shortestFrom_toDouble (x : Nat) (hx : toDouble x = x) :
    ∀ j, toDouble (shortestFrom x j) = x := by
  intro j
  induction j with
  | zero => exact hx
  | succ j ih =>
    simp only [shortestFrom]
    split
    · rename_i h
      simp only [Bool.and_eq_true, decide_eq_true_eq] at h
      split
      · exact h.1.2
      · exact h.2
    · split
      · rename_i h
        simp only [Bool.and_eq_true, decide_eq_true_eq] at h
        exact h.2
      · split
        · rename_i h
          simpa using h
        · exact ih

theorem shortestFrom_safe (x j : Nat) (h : x < 2 ^ 53) : shortestFrom x j = x := by
  have h1 := shortestFrom_toDouble x (toDouble_small x h) j
  by_cases hc : shortestFrom x j < 2 ^ 53
  · rw [toDouble_small _ hc] at h1
    exact h1
  · have := toDouble_large _ (Nat.not_lt.mp hc)
    omega

theorem numberToString_safe (x : Nat) (h : x < 2 ^ 53) : numberToString x = toString x := by
  unfold numberToString
  simp only
  rw [shortestFrom_safe x _ h]
  have h21 : x < 10 ^ 21 := by
    have : (2 : Nat) ^ 53 < 10 ^ 21 := by norm_num
    omega
  rw [if_pos h21]

theorem shiftUp_ge (j : Nat) : ∀ fuel a bound : Nat,
    2 ^ j * a < 2 * bound → j ≤ fuel → j ≤ shiftUp fuel a bound := by
  induction j with
  | zero => intro _ _ _ _ _; exact Nat.zero_le _
  | succ j ih =>
    intro fuel a bound h hf
    obtain ⟨f, rfl⟩ : ∃ f, fuel = f + 1 := ⟨fuel - 1, by omega⟩
    have hp : 1 ≤ 2 ^ j := Nat.one_le_two_pow
    have h2 : 2 ^ (j + 1) * a = 2 ^ j * (2 * a) := by ring
    have hlt : ¬ bound ≤ a := by
      intro hle
      have : 2 * a ≤ 2 ^ j * (2 * a) := Nat.le_mul_of_pos_left _ (by omega)
      omega
    rw [shiftUp]
    simp only [hlt, if_false]
    have := ih f (2 * a) bound (by omega) (by omega)
    omega

theorem roundHalfEven_scaled (s k : Nat) (hk : 5 ≤ k) :
    roundHalfEven (s * 2 ^ k) 60 / 2 ^ k = s / 60 := by
  have hP : 32 ≤ 2 ^ k := by
    calc 32 = 2 ^ 5 := rfl
      _ ≤ 2 ^ k := Nat.pow_le_pow_right (by decide) hk
  have hdiv : s * 2 ^ k / 60 / 2 ^ k = s / 60 := by
    rw [Nat.div_div_eq_div_mul, Nat.mul_div_mul_right _ _ (by omega)]
  rcases roundHalfEven_cases (s * 2 ^ k) 60 with h | ⟨h, hr⟩
  · rw [h, hdiv]
  · rw [h]
    have e1 := Nat.div_add_mod (s * 2 ^ k) 60
    have e2 := Nat.div_add_mod s 60
    have e3 : s * 2 ^ k = 60 * (s / 60 * 2 ^ k) + s % 60 * 2 ^ k := by
      conv_lhs => rw [← e2]
      ring
    have ht : s % 60 < 60 := Nat.mod_lt _ (by decide)
    have hy : s % 60 * 2 ^ k ≤ 59 * 2 ^ k := Nat.mul_le_mul_right _ (by omega)
    have hm : s * 2 ^ k % 60 < 60 := Nat.mod_lt _ (by decide)
    have lo : s / 60 * 2 ^ k ≤ s * 2 ^ k / 60 + 1 := by omega
    have hi : s * 2 ^ k / 60 + 1 < (s / 60 + 1) * 2 ^ k := by
      rw [Nat.add_mul, Nat.one_mul]
      omega
    exact Nat.div_eq_of_lt_le lo hi

theorem floorDiv_safe (s : Nat) (h : s < 2 ^ 53) : floorDiv s 60 = s / 60 := by
  unfold floorDiv
  by_cases h0 : s = 0
  · simp [h0]
  · simp only [h0, if_false]
    have hd : shiftDown 1100 s (60 * 2 ^ 53) = 0 := by
      rw [show (1100 : Nat) = 1099 + 1 from rfl]
      exact shiftDown_zero 1099 s _ (by omega)
    have hu : 5 ≤ shiftUp 1100 s (60 * 2 ^ 52) := by
      apply shiftUp_ge 5 1100 s _ _ (by decide)
      have : (2 : Nat) ^ 53 = 9007199254740992 := by norm_num
      have : (2 : Nat) ^ 52 = 4503599627370496 := by norm_num
      omega
    rw [hd]
    simp only [Nat.pow_zero, Nat.mul_one]
    exact roundHalfEven_scaled s _ hu

theorem formatTime_safe (s : Nat) (h : s < 2 ^ 53) :
    formatTime s = padStart2 (toString (s / 60)) ++ ":" ++ padStart2 (toString (s % 60)) := by
  unfold formatTime
  simp only
  have h1 : s / 60 < 2 ^ 53 := lt_of_le_of_lt (Nat.div_le_self _ _) h
  have h2 : s % 60 < 2 ^ 53 := by
    have : s % 60 < 60 := Nat.mod_lt _ (by decide)
    have : (2 : Nat) ^ 53 = 9007199254740992 := by norm_num
    omega
  rw [floorDiv_safe s h, numberToString_safe _ h1, numberToString_safe _ h2]

theorem formatTime_toList (s : Nat) (h : s < 2 ^ 53) :
    (formatTime s).toList =
      (List.replicate (2 - (decimal (s / 60)).length) '0' ++ decimal (s / 60)) ++
        ':' :: (List.replicate (2 - (decimal (s % 60)).length) '0' ++ decimal (s % 60)) := by
  have hm := (padded_spec (s / 60)).1
  have hs := (padded_spec (s % 60)).1
  rw [formatTime_safe s h]
  simp only [String.toList] at hm hs ⊢
  rw [String.data_append, String.data_append, hm, hs]
  simp

theorem formatTime_parts (s : Nat) (h : s < 2 ^ 53) :
    minutesPart (formatTime s)
      = List.replicate (2 - (decimal (s / 60)).length) '0' ++ decimal (s / 60) ∧
    secondsPart (formatTime s)
      = List.replicate (2 - (decimal (s % 60)).length) '0' ++ decimal (s % 60) := by
  obtain ⟨t1, t2⟩ := takeWhile_digits _
    (List.replicate (2 - (decimal (s % 60)).length) '0' ++ decimal (s % 60))
    (padded_spec (s / 60)).2.1
  unfold minutesPart secondsPart
  rw [formatTime_toList s h, t1, t2]
  simp

theorem readTime_formatTime (s : Nat) (h : s < 2 ^ 53) : readTime (formatTime s) = s := by
  obtain ⟨hm, hs⟩ := formatTime_parts s h
  unfold readTime
  rw [hm, hs, (padded_spec (s / 60)).2.2.1, (padded_spec (s % 60)).2.2.1]
  omega

/-! ## Claim on `formatTime` -/

/-- C14 (counterexample): 10^21 is a non-negative integer and a double; the
quotient 10^21 / 60 is rounded to the double 16666666666666665984, which prints
as 16666666666666666000, so `formatTime` gives "16666666666666666000:40".
Its minutes are not the decimal numeral of 16666666666666666666, and reading
the string back gives 10^21 - 39960, not 10^21. -/
theorem C14_formatTime_rounds_large_seconds :
    toDouble (10 ^ 21) = 10 ^ 21 ∧
    formatTime (10 ^ 21) = "16666666666666666000:40" ∧
    10 ^ 21 / 60 = 16666666666666666666 ∧
    minutesPart (formatTime (10 ^ 21)) ≠ (toString (10 ^ 21 / 60)).toList ∧
    readTime (formatTime (10 ^ 21)) = 10 ^ 21 - 39960 ∧
    readTime (formatTime (10 ^ 21)) ≠ 10 ^ 21 := by
  decide

/-- C14 (amended): for every number of seconds `s` below 2^53, `formatTime s`
is `M`, a colon and `SS`, where `SS` is two decimal digits denoting `s % 60`
(below 60) and `M` is the decimal numeral of `s / 60` padded on the left with
zeros to at least two digits; reading the string back as `60 * M + SS` gives
`s`, so distinct durations below 2^53 give distinct strings; and for
`s < 6000` the string has exactly five characters. -/
theorem C14_formatTime_reads_back (s : Nat) (hs53 : s < 2 ^ 53) :
    (formatTime s).toList = minutesPart (formatTime s) ++ ':' :: secondsPart (formatTime s) ∧
    (secondsPart (formatTime s)).length = 2 ∧
    (secondsPart (formatTime s)).all Char.isDigit = true ∧
    readDecimal (secondsPart (formatTime s)) = s % 60 ∧
    s % 60 < 60 ∧
    (minutesPart (formatTime s)).all Char.isDigit = true ∧
    2 ≤ (minutesPart (formatTime s)).length ∧
    readDecimal (minutesPart (formatTime s)) = s / 60 ∧
    minutesPart (formatTime s) =
      List.replicate (2 - (toString (s / 60)).length) '0' ++ (toString (s / 60)).toList ∧
    readTime (formatTime s) = s ∧
    (∀ t : Nat, t < 2 ^ 53 → formatTime s = formatTime t → s = t) ∧
    (s < 6000 → (formatTime s).length = 5) := by
  obtain ⟨hm, hs⟩ := formatTime_parts s hs53
  obtain ⟨_, m2, m3, m4, m5⟩ := padded_spec (s / 60)
  obtain ⟨_, s2, s3, _, s5⟩ := padded_spec (s % 60)
  have hlt : s % 60 < 60 := Nat.mod_lt _ (by omega)
  have hlen : (toString (s / 60)).length = (decimal (s / 60)).length := by
    rw [← toString_toList (s / 60)]; rfl
  refine ⟨?_, ?_, ?_, ?_, hlt, ?_, ?_, ?_, ?_, readTime_formatTime s hs53, ?_, ?_⟩
  · rw [hm, hs]; exact formatTime_toList s hs53
  · rw [hs]; exact s5 (by omega)
  · rw [hs]; exact s2
  · rw [hs]; exact s3
  · rw [hm]; exact m2
  · rw [hm]; exact m4
  · rw [hm]; exact m3
  · rw [hm, hlen, toString_toList]
  · intro t ht53 ht
    have h1 := readTime_formatTime s hs53
    rw [ht, readTime_formatTime t ht53] at h1
    exact h1.symm
  · intro h6000
    show (formatTime s).toList.length = 5
    rw [formatTime_toList s hs53]
    have a := m5 (by omega)
    have b := s5 (by omega)
    simp only [List.length_append, List.length_cons] at a b ⊢
    omega

/-- Witness for the amended C14 at 75 seconds, which is below 6000. -/
theorem C14_formatTime_reads_back_witness :
    75 < 2 ^ 53 ∧ formatTime 75 = "01:15" ∧ readTime (formatTime 75) = 75 ∧
    (formatTime 75).length = 5 :=
  ⟨by decide, by decide,
   (C14_formatTime_reads_back 75 (by decide)).2.2.2.2.2.2.2.2.2.1,
   (C14_formatTime_reads_back 75 (by decide)).2.2.2.2.2.2.2.2.2.2.2 (by decide)⟩

/-! ## Lemmas on the calls made by the handlers -/

theorem added_of_append (w w1 : World) (es : List Event) (h : w1.trace = w.trace ++ es) :
    added w w1 = es := by
  simp [added, h]

theorem startListening_calls (env : Env) (w : World) :
    (startListening env initialState w).trace =
      w.trace ++ (if env.hasRecognition then [Event.recognitionStart] else []) := by
  unfold startListening
  cases env.hasRecognition <;> simp [initialState, World.put, World.emit]

theorem speakText_calls (env : Env) (o : SpeechOutcome) (text : String) (w : World) :
    ∃ es, (speakText env initialState o text w).1.trace = w.trace ++ es ∧
      ∀ p, (es.foldl Pending.record p).requests = p.requests ∧
        Pending.afterSpeech env (speechRejects env o) p (es.foldl Pending.record p) := by
  rcases o with ⟨tts, playOk, synthThrows⟩
  unfold speakText speakTextTry speakTextCatch speechRejects startListening Pending.afterSpeech
  cases tts with
  | rejected =>
    cases hs : env.hasSpeechSynthesis <;> cases synthThrows <;> cases hr : env.hasRecognition <;>
      simp [initialState, World.put, World.emit, Pending.record]
  | ok audio =>
    by_cases ha : truthy audio = true <;> cases playOk <;>
      cases hs : env.hasSpeechSynthesis <;> cases synthThrows <;>
      cases hr : env.hasRecognition <;>
      simp [ha, initialState, World.put, World.emit, Pending.record]

theorem handleUserSpeechReply_calls (env : Env) (response : Reply) (o : SpeechOutcome)
    (w : World) :
    ∃ es, (handleUserSpeechReply env initialState response o w).1.trace = w.trace ++ es ∧
      (handleUserSpeechReply env initialState response o w).2 = speechRejects env o ∧
      ∀ p, (es.foldl Pending.record p).requests = p.requests ∧
        Pending.afterSpeech env (speechRejects env o) p (es.foldl Pending.record p) := by
  obtain ⟨es, h1, h2⟩ := speakText_calls env o response.message
    ((w.put { w.state with
        messages := w.state.messages ++ [aiMessage response (initialState.turnCount + 1 + 1)],
        turnCount := initialState.turnCount + 1 + 1,
        currentSubtitle := response.message,
        koreanSubtitle := orElse response.translation "" }).emit
      (Event.saveMessage "assistant" response.message response.translation
        (initialState.turnCount + 1 + 1)))
  refine ⟨Event.saveMessage "assistant" response.message response.translation
      (initialState.turnCount + 1 + 1) :: es,
    h1.trans (by simp [World.put, World.emit]), speakText_rejects _ _ _ _ _, ?_⟩
  intro p
  simpa [Pending.record] using h2 p

theorem tokens_zero (p : Pending) (h : p.tokens = 0) :
    p.requests = 0 ∧ p.utterances = 0 ∧ p.timers = 0 ∧ p.capturing = false := by
  simp only [Pending.tokens] at h
  cases hc : p.capturing
  · rw [hc] at h
    simp only [Bool.false_eq_true, if_false, Nat.add_zero] at h
    exact ⟨by omega, by omega, by omega, rfl⟩
  · rw [hc] at h
    simp at h

theorem sequential_of (env : Env) (q : Pending) (r u t : Nat) (c : Bool)
    (hr : q.requests = r) (hu : q.utterances = u) (ht : q.timers = t) (hc : q.capturing = c)
    (hle : r + u + t + (if c then 1 else 0) ≤ 1) (hrec : c = true → env.hasRecognition = true) :
    Pending.sequential env q := by
  subst hr hu ht hc
  exact ⟨hle, hrec⟩

theorem handleUserSpeechResume_calls (env : Env) (reply : Option Reply) (o : SpeechOutcome)
    (w : World) :
    ∃ es, (handleUserSpeechResume env initialState reply o w).trace = w.trace ++ es ∧
      ∀ p, p.tokens = 0 → Pending.sequential env (es.foldl Pending.record p) := by
  cases reply with
  | none =>
    refine ⟨[Event.startListeningAfter 1000],
      (handleUserSpeechResume_rejected env initialState o w).2, ?_⟩
    intro p hp
    obtain ⟨z1, z2, z3, z4⟩ := tokens_zero p hp
    exact sequential_of env _ 0 0 1 false z1 z2 (by simp [Pending.record, z3]) z4
      (by simp) (by simp)
  | some response =>
    obtain ⟨es, h1, h2, h3⟩ := handleUserSpeechReply_calls env response o w
    simp only [handleUserSpeechResume, h2]
    cases hr : speechRejects env o
    · refine ⟨es, by simpa [World.put] using h1, ?_⟩
      intro p hp
      obtain ⟨z1, z2, z3, z4⟩ := tokens_zero p hp
      obtain ⟨q1, q2, q3⟩ := h3 p
      rcases q3 with ⟨a, b⟩ | ⟨_, a, b⟩ | ⟨_, a, b, c⟩
      · exact sequential_of env _ 0 0 0 false (q1.trans z1) (a.trans z2) (q2.trans z3)
          (b.trans z4) (by simp) (by simp)
      · exact sequential_of env _ 0 1 0 false (q1.trans z1) (by rw [a, z2]) (q2.trans z3)
          (b.trans z4) (by simp) (by simp)
      · exact sequential_of env _ 0 0 0 true (q1.trans z1) (a.trans z2) (q2.trans z3)
          b (by simp) (fun _ => c)
    · refine ⟨es ++ [Event.startListeningAfter 1000], ?_, ?_⟩
      · simp [World.put, World.emit, h1]
      · intro p hp
        obtain ⟨z1, z2, z3, z4⟩ := tokens_zero p hp
        obtain ⟨q1, q2, q3⟩ := h3 p
        rw [hr] at q3
        rw [List.foldl_append]
        rcases q3 with ⟨a, b⟩ | ⟨c, _⟩ | ⟨c, _⟩
        · exact sequential_of env _ 0 0 1 false (by simp [Pending.record, q1, z1])
            (by simp [Pending.record, a, z2]) (by simp [Pending.record, q2, z3])
            (by simp [Pending.record, b, z4]) (by simp) (by simp)
        · exact absurd c (by simp)
        · exact absurd c (by simp)

theorem afterSpeech_idle (env : Env) (rejects : Bool) (p q : Pending)
    (h : Pending.afterSpeech env rejects p q)
    (hu : p.utterances = 0) (ht : p.timers = 0) (hc : p.capturing = false) :
    q.utterances + q.timers + (if q.capturing then 1 else 0) ≤ 1 ∧
    (q.capturing = true → env.hasRecognition = true) ∧
    (rejects = true → q.utterances = 0 ∧ q.timers = 0 ∧ q.capturing = false) := by
  obtain ⟨h1, h2⟩ := h
  rcases h2 with ⟨a, b⟩ | ⟨r, a, b⟩ | ⟨r, a, b, c⟩
  · rw [h1, a, b, hu, ht, hc]; simp
  · rw [h1, a, b, hu, ht, hc, r]; simp
  · rw [h1, a, b, hu, ht, r]; simp [c]

theorem startConversationTry_calls (env : Env) (sessionOk : Bool) (greeting : Option Reply)
    (o : SpeechOutcome) (w : World) :
    ∃ es, (startConversationTry env initialState sessionOk greeting o w).1.trace
        = w.trace ++ es ∧
      ∀ p, Pending.afterSpeech env (startConversationTry env initialState sessionOk greeting o w).2
        p (es.foldl Pending.record p) := by
  cases sessionOk with
  | false =>
    exact ⟨[Event.startSession env.tutorName], by simp [startConversationTry, World.emit],
      fun p => by simp [startConversationTry, Pending.afterSpeech, Pending.record]⟩
  | true =>
    cases greeting with
    | none =>
      exact ⟨[Event.startSession env.tutorName, Event.sendMessage []],
        by simp [startConversationTry, World.emit, World.put],
        fun p => by simp [startConversationTry, Pending.afterSpeech, Pending.record]⟩
    | some response =>
      obtain ⟨es, h1, h2⟩ := speakText_calls env o response.message
        (((((w.emit (Event.startSession env.tutorName)).put
            { (w.emit (Event.startSession env.tutorName)).state with
                sessionStarted := true }).emit (Event.sendMessage [])).put
            { (((w.emit (Event.startSession env.tutorName)).put
                { (w.emit (Event.startSession env.tutorName)).state with
                    sessionStarted := true }).emit (Event.sendMessage [])).state with
              messages := [aiMessage response 1],
              currentSubtitle := response.message,
              koreanSubtitle := orElse response.translation "",
              turnCount := 1 }).emit
          (Event.saveMessage "assistant" response.message response.translation 1))
      refine ⟨Event.startSession env.tutorName :: Event.sendMessage [] ::
          Event.saveMessage "assistant" response.message response.translation 1 :: es,
        h1.trans (by simp [World.put, World.emit]), ?_⟩
      intro p
      have hrej : (startConversationTry env initialState true (some response) o w).2
          = speechRejects env o := speakText_rejects _ _ _ _ _
      rw [hrej]
      have := (h2 { p with requests := p.requests + 1 }).2
      simpa [Pending.record, Pending.afterSpeech] using this

theorem startConversationCatch_calls (env : Env) (o : SpeechOutcome) (w : World) :
    ∃ es, (startConversationCatch env initialState o w).trace = w.trace ++ es ∧
      ∀ p, Pending.afterSpeech env false p (es.foldl Pending.record p) := by
  obtain ⟨es, h1, h2⟩ := speakText_calls env o (mockMessage env.tutorName)
    (w.put { w.state with
      messages := [mockGreeting env.tutorName],
      currentSubtitle := mockMessage env.tutorName,
      koreanSubtitle := mockTranslation env.tutorName,
      turnCount := 1 })
  have hrej := speakText_rejects env initialState o (mockMessage env.tutorName)
    (w.put { w.state with
      messages := [mockGreeting env.tutorName],
      currentSubtitle := mockMessage env.tutorName,
      koreanSubtitle := mockTranslation env.tutorName,
      turnCount := 1 })
  simp only [startConversationCatch, hrej]
  cases hr : speechRejects env o
  · refine ⟨es, by simpa [World.put] using h1, ?_⟩
    intro p
    have := (h2 p).2
    rwa [hr] at this
  · refine ⟨es ++ (if env.hasRecognition then [Event.recognitionStart] else []), ?_, ?_⟩
    · simp only [if_true]
      rw [startListening_calls, h1]
      simp [World.put]
    · intro p
      obtain ⟨q1, q2⟩ := (h2 p).2
      rw [hr] at q2
      rw [List.foldl_append]
      rcases q2 with ⟨a, b⟩ | ⟨c, _⟩ | ⟨c, _⟩
      · cases hrec : env.hasRecognition
        · simp [Pending.afterSpeech, q1, a, b]
        · simp [Pending.afterSpeech, Pending.record, q1, a, hrec]
      · exact absurd c (by simp)
      · exact absurd c (by simp)

theorem startConversation_calls (env : Env) (sessionOk : Bool) (greeting : Option Reply)
    (o1 o2 : SpeechOutcome) (w : World) :
    ∃ es, (startConversation env initialState sessionOk greeting o1 o2 w).trace
        = w.trace ++ es ∧
      ∀ p, p.utterances = 0 → p.timers = 0 → p.capturing = false →
        (es.foldl Pending.record p).utterances + (es.foldl Pending.record p).timers +
            (if (es.foldl Pending.record p).capturing then 1 else 0) ≤ 1 ∧
        ((es.foldl Pending.record p).capturing = true → env.hasRecognition = true) := by
  simp only [startConversation]
  generalize hw0 : (w.put { w.state with isLoading := true }) = w0
  have hw : w0.trace = w.trace := by rw [← hw0]; rfl
  obtain ⟨es1, h1, h2⟩ := startConversationTry_calls env sessionOk greeting o1 w0
  cases ht : (startConversationTry env initialState sessionOk greeting o1 w0).2
  · refine ⟨es1, ?_, ?_⟩
    · simp only [Bool.false_eq_true, if_false, World.put]
      rw [h1, hw]
    · intro p hu htm hc
      have := afterSpeech_idle env _ p _ (h2 p) hu htm hc
      exact ⟨this.1, this.2.1⟩
  · obtain ⟨es2, h3, h4⟩ := startConversationCatch_calls env o2
      (startConversationTry env initialState sessionOk greeting o1 w0).1
    refine ⟨es1 ++ es2, ?_, ?_⟩
    · simp only [if_true, World.put]
      rw [h3, h1, hw, List.append_assoc]
    · intro p hu htm hc
      have a := afterSpeech_idle env _ p _ (h2 p) hu htm hc
      obtain ⟨a1, a2, a3⟩ := a.2.2 ht
      rw [List.foldl_append]
      have b := afterSpeech_idle env false _ _ (h4 (es1.foldl Pending.record p)) a1 a2 a3
      exact ⟨b.1, b.2.1⟩

theorem run_pending (s : Sys) (f : World → World) (es : List Event)
    (h : (f s.world).trace = s.world.trace ++ es) :
    (s.run f).pending = es.foldl Pending.record s.pending := by
  simp [Sys.run, added_of_append _ _ es h]

theorem run_pending_mk (w : World) (p : Pending) (f : World → World) (es : List Event)
    (h : (f w).trace = w.trace ++ es) :
    (Sys.run { world := w, pending := p } f).pending = es.foldl Pending.record p :=
  run_pending { world := w, pending := p } f es h

theorem sequential_stopped (env : Env) (p q : Pending) (h : Pending.sequential env p)
    (hr : q.requests = p.requests) (hu : q.utterances = p.utterances)
    (ht : q.timers = p.timers) (hc : q.capturing = false) : Pending.sequential env q := by
  obtain ⟨h1, _⟩ := h
  refine ⟨?_, by simp [hc]⟩
  simp only [Pending.tokens, hr, hu, ht, hc] at h1 ⊢
  cases hp : p.capturing <;> rw [hp] at h1 <;> simp at h1 ⊢ <;> omega

theorem sequential_record_stop (env : Env) (p : Pending) (h : Pending.sequential env p) :
    Pending.sequential env ([Event.recognitionStop].foldl Pending.record p) := by
  cases hc : p.capturing
  · simpa [Pending.record, hc] using h
  · exact sequential_stopped env p _ h (by simp [Pending.record, hc])
      (by simp [Pending.record, hc]) (by simp [Pending.record, hc])
      (by simp [Pending.record, hc])

theorem sequential_listen (env : Env) (p : Pending) (h : p.tokens = 0) :
    Pending.sequential env
      ((if env.hasRecognition then [Event.recognitionStart] else []).foldl Pending.record p) := by
  obtain ⟨z1, z2, z3, z4⟩ := tokens_zero p h
  cases hr : env.hasRecognition
  · exact sequential_of env _ 0 0 0 false (by simpa using z1) (by simpa using z2)
      (by simpa using z3) (by simpa using z4) (by simp) (by simp)
  · exact sequential_of env _ 0 0 0 true (by simpa [Pending.record] using z1)
      (by simpa [Pending.record] using z2) (by simpa [Pending.record] using z3)
      (by simp [Pending.record]) (by simp) (fun _ => hr)

theorem onresultBegin_calls (env : Env) (results : List SpeechResult) (w : World)
    (hrec : env.hasRecognition = true) :
    (onresultBegin env initialState results w).trace = w.trace ∨
    (onresultBegin env initialState results w).trace
      = w.trace ++
          [Event.recognitionStop,
           Event.saveMessage "user" (finalTranscript results) none (initialState.turnCount + 1),
           Event.sendMessage ((initialState.messages ++
             [userMessage initialState (finalTranscript results)]).map toApiMessage)] := by
  unfold onresultBegin
  simp only
  split
  · right
    have h := (handleUserSpeechBegin_state env initialState (finalTranscript results) w).2
    simp only [World.put]
    rw [h, hrec]
    simp
  · left
    rfl

theorem toggleMute_calls (env : Env) (w : World) :
    (toggleMute env w.state w).trace = w.trace ∨
    (toggleMute env w.state w).trace = w.trace ++ [Event.recognitionStop] := by
  unfold toggleMute startListening stopListening
  cases hm : w.state.isMuted <;> cases hr : env.hasRecognition <;>
    simp [World.put, World.emit, hm]

theorem utteranceOnEnd_calls (env : Env) (w : World) :
    (utteranceOnEnd env initialState w).trace =
      w.trace ++ (if env.hasRecognition then [Event.recognitionStart] else []) := by
  unfold utteranceOnEnd
  rw [startListening_calls]
  rfl

theorem step_sequential (env : Env) (s : Sys) (i : Input)
    (h : Pending.sequential env s.pending) (hl : isLateResult s i = false) :
    Pending.sequential env (step env s i).pending := by
  have htok := h.1
  simp only [Pending.tokens] at htok
  cases i with
  | results results =>
    simp only [step]
    cases hc : s.pending.capturing
    · simp [isLateResult, hc] at hl
    · simp only [if_true]
      have hz : s.pending.requests = 0 ∧ s.pending.utterances = 0 ∧ s.pending.timers = 0 := by
        rw [hc] at htok
        simp only [if_true] at htok
        omega
      have hrec := h.2 hc
      rcases onresultBegin_calls env results s.world hrec with h1 | h1
      · rw [run_pending s _ [] (by simpa using h1)]
        exact h
      · rw [run_pending s _ _ h1]
        exact sequential_of env _ 1 0 0 false (by simp [Pending.record, hc, hz.1])
          (by simp [Pending.record, hc, hz.2.1]) (by simp [Pending.record, hc, hz.2.2])
          (by simp [Pending.record, hc]) (by simp) (by simp)
  | settled reply o =>
    simp only [step]
    by_cases hq : 0 < s.pending.requests
    · simp only [hq, if_true]
      obtain ⟨es, h1, h2⟩ := handleUserSpeechResume_calls env reply o s.world
      rw [run_pending_mk _ _ _ es h1]
      apply h2
      simp only [Pending.tokens]
      cases hc : s.pending.capturing <;> rw [hc] at htok <;> simp at htok ⊢ <;> omega
    · simpa [hq] using h
  | utteranceEnded =>
    simp only [step]
    by_cases hq : 0 < s.pending.utterances
    · simp only [hq, if_true]
      rw [run_pending_mk _ _ _ _ (utteranceOnEnd_calls env s.world)]
      apply sequential_listen
      simp only [Pending.tokens]
      cases hc : s.pending.capturing <;> rw [hc] at htok <;> simp at htok ⊢ <;> omega
    · simpa [hq] using h
  | timerFired =>
    simp only [step]
    by_cases hq : 0 < s.pending.timers
    · simp only [hq, if_true]
      rw [run_pending_mk _ _ _ _ (startListening_calls env s.world)]
      apply sequential_listen
      simp only [Pending.tokens]
      cases hc : s.pending.capturing <;> rw [hc] at htok <;> simp at htok ⊢ <;> omega
    · simpa [hq] using h
  | muteToggled =>
    simp only [step]
    rcases toggleMute_calls env s.world with h1 | h1
    · rw [run_pending s _ [] (by simpa using h1)]
      exact h
    · rw [run_pending s _ _ h1]
      exact sequential_record_stop env _ h
  | captureEnded =>
    exact sequential_stopped env s.pending _ h rfl rfl rfl rfl

theorem mount_sequential (env : Env) (sessionOk : Bool) (greeting : Option Reply)
    (o1 o2 : SpeechOutcome) : Pending.sequential env (mount env sessionOk greeting o1 o2).pending := by
  obtain ⟨es, h1, h2⟩ := startConversation_calls env sessionOk greeting o1 o2 initialWorld
  have h3 := h2 { requests := 0, utterances := 0, timers := 0, capturing := false,
                  flushing := false } rfl rfl rfl
  simp only [mount, mountedStartConversation]
  rw [run_pending _ _ es h1]
  exact ⟨by simpa [Pending.tokens] using h3.1, h3.2⟩

theorem runAll_sequential (env : Env) (inputs : List Input) :
    ∀ s : Sys, Pending.sequential env s.pending → noLateResult env s inputs = true →
      Pending.sequential env (runAll env s inputs).pending := by
  induction inputs with
  | nil => intro s h _; exact h
  | cons i rest ih =>
    intro s h hn
    simp only [noLateResult, Bool.and_eq_true, Bool.not_eq_true'] at hn
    exact ih (step env s i) (step_sequential env s i h hn.1) hn.2

theorem onresult_eq_resume_begin (env : Env) (r : CallState) (results : List SpeechResult)
    (reply : Option Reply) (o : SpeechOutcome) (w : World) :
    onresult env r results reply o w =
      if finalTranscript results != "" && !isBlank (finalTranscript results) then
        handleUserSpeechResume env r reply o (onresultBegin env r results w)
      else onresultBegin env r results w := by
  unfold onresult onresultBegin
  rfl

theorem runAll_request_outstanding :
    (runAll sampleEnv
        (mount sampleEnv true (some { message := "Hello!", translation := none }) audioPlayed
          audioPlayed)
        [Input.results [{ isFinal := true, transcript := "hi" }]]).pending
      = { requests := 1, utterances := 0, timers := 0, capturing := false,
          flushing := true } := by
  decide

theorem requests_sequential_without_late_result (env : Env) (sessionOk : Bool)
    (greeting : Option Reply) (o1 o2 : SpeechOutcome) (inputs : List Input)
    (h : noLateResult env (mount env sessionOk greeting o1 o2) inputs = true) :
    (runAll env (mount env sessionOk greeting o1 o2) inputs).pending.requests ≤ 1 := by
  have hs := runAll_sequential env inputs (mount env sessionOk greeting o1 o2)
    (mount_sequential env sessionOk greeting o1 o2) h
  have h1 := hs.1
  simp only [Pending.tokens] at h1
  omega

/-! ## Claim on sequential turn-taking -/

/-- C12 (the code departs from the claim): after the greeting the recogniser is
running; the transcript "hi" makes the mounted handler call `stop()` and issue
a request, leaving `isLoading` true; the result that the recogniser returns
after `stop()`, "there", reaches the same handler before that request has
settled and issues a second request, so two requests are outstanding. -/
theorem C12_result_after_stop_issues_second_request :
    added greetedWorld awaitingWorld =
      [Event.recognitionStop, Event.saveMessage "user" "hi" none 1,
       Event.sendMessage [{ role := "user", content := "hi" }]] ∧
    awaitingWorld.state.isLoading = true ∧
    added awaitingWorld
        (onresultBegin sampleEnv initialState [{ isFinal := true, transcript := "there" }]
          awaitingWorld) =
      [Event.recognitionStop, Event.saveMessage "user" "there" none 1,
       Event.sendMessage [{ role := "user", content := "there" }]] ∧
    (runAll sampleEnv greetedSys [Input.results [{ isFinal := true, transcript := "hi" }]]).pending
      = { requests := 1, utterances := 0, timers := 0, capturing := false, flushing := true } ∧
    (runAll sampleEnv greetedSys
        [Input.results [{ isFinal := true, transcript := "hi" }],
         Input.results [{ isFinal := true, transcript := "there" }]]).pending.requests = 2 := by
  decide

end Ringgle
